import Mathlib

/-!
# Pebble watchface (`create_a_c_watchface/src/main.c`)

A shallow embedding of the watchface's event handlers `update_time`,
`update_date`, `tick_handler`, `inbox_received_callback`, `main_window_load`
and `main_window_unload`.

* C strings are lists of byte values; a `char` array is the list of all its
  bytes and `cstr` reads the string stored at its start.
* The function-local `static` buffers and the file-level handle variables are
  fields of one explicit state record, `AppState`.
* A text layer stores the pointer it is given, so a label's text is read
  through that pointer in the current state (`labelText`).
* Every call into the SDK is appended to a trace; a constructor call returns a
  handle that was never handed out before.
* The libc functions `snprintf` and `strftime` follow the C standard for the
  conversions the program uses; what the host decides (local time, display
  preference, month names) is a parameter, `Env`.
-/

namespace PebbleWatchface

/-! ## Bytes, C strings and `snprintf` -/

/-- A sequence of byte values (a `char` array). -/
abbrev Bytes := List Nat

/-- The C string stored at the start of a `char` array: the bytes before the
first NUL. -/
def cstr : Bytes → Bytes
  | [] => []
  | b :: bs => if b = 0 then [] else b :: cstr bs

/-- Most significant first decimal digits of `n`, as ASCII bytes; the first
argument bounds the number of digits produced. -/
def natDigits : Nat → Nat → Bytes
  | 0, _ => []
  | fuel + 1, n =>
    if n < 10 then [48 + n] else natDigits fuel (n / 10) ++ [48 + n % 10]

/-- Decimal form of a natural number (`n + 1` always bounds its digit count). -/
def decimalNat (n : Nat) : Bytes := natDigits (n + 1) n

/-- Output of the conversion `%d`: an optional minus sign and the decimal digits. -/
def decimal (n : Int) : Bytes :=
  if n < 0 then 45 :: decimalNat n.natAbs else decimalNat n.natAbs

/-- An argument of a `printf`-family call. -/
inductive Arg where
  | int (n : Int)
  | str (s : Bytes)
  deriving DecidableEq, Repr

/-- The full output a `printf`-family call produces for a format and its
arguments, before any truncation.  Only the conversions the program uses are
interpreted: `%d` (37, 100) and `%s` (37, 115); every other byte is copied. -/
def formatOutput : Bytes → List Arg → Bytes
  | [], _ => []
  | [c], _ => [c]
  | c :: d :: rest, args =>
    if c = 37 ∧ d = 100 then
      match args with
      | Arg.int n :: args1 => decimal n ++ formatOutput rest args1
      | _ => c :: formatOutput (d :: rest) args
    else if c = 37 ∧ d = 115 then
      match args with
      | Arg.str s :: args1 => cstr s ++ formatOutput rest args1
      | _ => c :: formatOutput (d :: rest) args
    else c :: formatOutput (d :: rest) args

/-- The array `buf` after `snprintf(buf, size, ...)` whose untruncated output
is `out`: at most `size - 1` bytes of the output, a terminating NUL, and the
bytes of the array behind it untouched. -/
def snprintf (buf : Bytes) (size : Nat) (out : Bytes) : Bytes :=
  if size = 0 then buf
  else out.take (size - 1) ++ 0 :: buf.drop ((out.take (size - 1)).length + 1)

/-- The bytes of a string literal of the source (UTF-8). -/
def utf8 (s : String) : Bytes := s.toUTF8.data.toList.map UInt8.toNat

/-! ## Data model -/

/-- Keys of the inbound dictionary (`#define KEY_TEMPERATURE 0`). -/
def KEY_TEMPERATURE : Nat := 0

/-- Keys of the inbound dictionary (`#define KEY_CONDITIONS 1`). -/
def KEY_CONDITIONS : Nat := 1

/-- One entry of a received dictionary.  The source reads the value union
through two of its members, `t->value->int32` and `t->value->cstring`; the
record carries what each of the two reads yields. -/
structure Tuple where
  key : Nat
  int32 : Int
  cstring : Bytes
  deriving DecidableEq, Repr

/-- The fields of `struct tm` the program's format strings read. -/
structure Tm where
  tm_min : Int
  tm_hour : Int
  tm_mday : Int
  tm_mon : Int
  deriving DecidableEq, Repr

/-- What the host provides to a handler: the broken-down local time returned by
`localtime(&temp)` after `time(NULL)`, the display-format preference, the
locale's abbreviated month names, and the (indeterminate) array contents a
`strftime` call leaves behind when its output does not fit. -/
structure Env where
  localtime : Tm
  clock_is_24h_style : Bool
  abmon : Int → Bytes
  strftime_overflow : Bytes

/-- Where a text layer's text pointer points: a string literal or one of the
program's static buffers. -/
inductive TextRef where
  | literal (text : Bytes)
  | buffer
  | buffer_daymonth
  | weather_layer_buffer
  deriving DecidableEq, Repr

/-- Bundled resources named by the source. -/
inductive ResourceId where
  | RESOURCE_ID_TUTORIAL_BACKGROUND
  | RESOURCE_ID_FONT_PERFECT_DOS_48
  | RESOURCE_ID_FONT_PERFECT_DOS_16
  | RESOURCE_ID_FONT_PERFECT_DOS_24
  deriving DecidableEq, Repr

/-- Colours named by the source. -/
inductive GColor where
  | GColorClear
  | GColorBlack
  | GColorWhite
  deriving DecidableEq, Repr

/-- Text alignments named by the source. -/
inductive GTextAlignment where
  | GTextAlignmentCenter
  deriving DecidableEq, Repr

/-- Log levels named by the source. -/
inductive AppLogLevel where
  | APP_LOG_LEVEL_ERROR
  | APP_LOG_LEVEL_INFO
  deriving DecidableEq, Repr

/-- A screen rectangle, `GRect(x, y, w, h)`. -/
structure GRect where
  x : Int
  y : Int
  w : Int
  h : Int
  deriving DecidableEq, Repr

/-- A call into the SDK, with its arguments and, for a constructor call, the
handle it returned.  The accessor calls nested in an argument position
(`resource_get_handle`, `window_get_root_layer`, `bitmap_layer_get_layer` and
`text_layer_get_layer`) have no effect of their own and are folded into the
call that consumes their result. -/
inductive SdkCall where
  | gbitmap_create_with_resource (res : ResourceId) (ret : Nat)
  | bitmap_layer_create (frame : GRect) (ret : Nat)
  | bitmap_layer_set_bitmap (layer bitmap : Nat)
  | text_layer_create (frame : GRect) (ret : Nat)
  | text_layer_set_background_color (layer : Nat) (color : GColor)
  | text_layer_set_text_color (layer : Nat) (color : GColor)
  | text_layer_set_text (layer : Nat) (text : TextRef)
  | fonts_load_custom_font (res : ResourceId) (ret : Nat)
  | text_layer_set_font (layer font : Nat)
  | text_layer_set_text_alignment (layer : Nat) (alignment : GTextAlignment)
  | layer_add_child (window child : Nat)
  | text_layer_destroy (layer : Nat)
  | fonts_unload_custom_font (font : Nat)
  | gbitmap_destroy (bitmap : Nat)
  | bitmap_layer_destroy (layer : Nat)
  | app_message_outbox_begin
  | dict_write_uint8 (key value : Nat)
  | app_message_outbox_send
  | app_log (level : AppLogLevel) (message : Bytes)
  deriving DecidableEq, Repr

/-- The program state: the file-level handle variables, the function-local
static buffers, and the part of the SDK's state the program can observe (the
next fresh handle, the text pointer of each live text layer, the calls made
so far). -/
structure AppState where
  s_time_layer : Nat
  s_weather_layer : Nat
  s_daymonth_layer : Nat
  s_time_font : Nat
  s_weather_font : Nat
  s_date_font : Nat
  s_background_layer : Nat
  s_background_bitmap : Nat
  buffer : Bytes
  buffer_daymonth : Bytes
  temperature_buffer : Bytes
  conditions_buffer : Bytes
  weather_layer_buffer : Bytes
  next_handle : Nat
  layer_text : List (Nat × TextRef)
  trace : List SdkCall
  deriving DecidableEq, Repr

/-- State at program start: static storage is zero-initialised except for the
two buffers that have an initialiser (`"00:00"` and `"00.000"`). -/
def AppState.initial : AppState where
  s_time_layer := 0
  s_weather_layer := 0
  s_daymonth_layer := 0
  s_time_font := 0
  s_weather_font := 0
  s_date_font := 0
  s_background_layer := 0
  s_background_bitmap := 0
  buffer := utf8 "00:00" ++ [0]
  buffer_daymonth := utf8 "00.000" ++ [0]
  temperature_buffer := List.replicate 8 0
  conditions_buffer := List.replicate 32 0
  weather_layer_buffer := List.replicate 32 0
  next_handle := 1
  layer_text := []
  trace := []

/-- The string a text pointer designates in a state. -/
def deref (s : AppState) : TextRef → Bytes
  | TextRef.literal text => cstr text
  | TextRef.buffer => cstr s.buffer
  | TextRef.buffer_daymonth => cstr s.buffer_daymonth
  | TextRef.weather_layer_buffer => cstr s.weather_layer_buffer

/-- The text a text layer shows: the string its text pointer designates (the
empty string while no text has been set). -/
def labelText (s : AppState) (layer : Nat) : Bytes :=
  match s.layer_text.lookup layer with
  | some r => deref s r
  | none => []

/-- The calls a state transformer adds to the trace. -/
def callsOf (f : AppState → AppState) (s : AppState) : List SdkCall :=
  (f s).trace.drop s.trace.length

/-! ## The SDK calls the program makes -/

/-- Append a call to the trace. -/
def record (c : SdkCall) (s : AppState) : AppState :=
  { s with trace := s.trace ++ [c] }

/-- Hand out a fresh handle for a created object and record the constructor
call that returned it. -/
def create (mk : Nat → SdkCall) (s : AppState) : Nat × AppState :=
  (s.next_handle, record (mk s.next_handle) { s with next_handle := s.next_handle + 1 })

/-- The SDK stores the pointer, not a copy: `text_layer_set_text`. -/
def text_layer_set_text (layer : Nat) (text : TextRef) (s : AppState) : AppState :=
  record (SdkCall.text_layer_set_text layer text)
    { s with layer_text := (layer, text) :: s.layer_text }

/-- Destroying a text layer ends its life: `text_layer_destroy`. -/
def text_layer_destroy (layer : Nat) (s : AppState) : AppState :=
  record (SdkCall.text_layer_destroy layer)
    { s with layer_text := s.layer_text.filter (fun p => p.1 != layer) }

/-- Output of the conversion `%02d` (pad byte 48) or `%2d` (pad byte 32). -/
def pad2 (padByte : Nat) (n : Int) : Bytes :=
  List.replicate (2 - (decimal n).length) padByte ++ decimal n

/-- Hour on the 12-hour clock, as `%I` prints it. -/
def hour12 (h : Int) : Int := if h.tmod 12 = 0 then 12 else h.tmod 12

/-- Output of one `strftime` conversion; the program uses `%H` (72), `%I` (73),
`%M` (77), `%e` (101) and `%b` (98), any other is not interpreted. -/
def strftimeConversion (abmon : Int → Bytes) (d : Nat) (tm : Tm) : Bytes :=
  if d = 72 then pad2 48 tm.tm_hour
  else if d = 73 then pad2 48 (hour12 tm.tm_hour)
  else if d = 77 then pad2 48 tm.tm_min
  else if d = 101 then pad2 32 tm.tm_mday
  else if d = 98 then abmon tm.tm_mon
  else [37, d]

/-- The full output of `strftime` for a format and a broken-down time. -/
def strftimeOutput (abmon : Int → Bytes) : Bytes → Tm → Bytes
  | [], _ => []
  | [c], _ => [c]
  | c :: d :: rest, tm =>
    if c = 37 then strftimeConversion abmon d tm ++ strftimeOutput abmon rest tm
    else c :: strftimeOutput abmon (d :: rest) tm

/-- The array `buf` after `strftime(buf, maxsize, format, tm)`: the output and
its terminating NUL when both fit in `maxsize` bytes, indeterminate contents
otherwise. -/
def strftime (env : Env) (buf : Bytes) (maxsize : Nat) (format : Bytes) (tm : Tm) : Bytes :=
  if (strftimeOutput env.abmon format tm).length + 1 ≤ maxsize then
    strftimeOutput env.abmon format tm
      ++ 0 :: buf.drop ((strftimeOutput env.abmon format tm).length + 1)
  else env.strftime_overflow

/-- The conversion `(int)t->key` of a 32-bit unsigned key. -/
def castInt (k : Nat) : Int :=
  if k % 2 ^ 32 < 2 ^ 31 then (k % 2 ^ 32 : Nat) else ((k % 2 ^ 32 : Nat) : Int) - 2 ^ 32

/-! ## The program -/

/-- Source `update_time`. -/
def update_time (env : Env) (s : AppState) : AppState :=
  let tick_time := env.localtime
  let s1 :=
    if env.clock_is_24h_style then
      { s with buffer := strftime env s.buffer 6 (utf8 "%H:%M") tick_time }
    else
      { s with buffer := strftime env s.buffer 6 (utf8 "%I:%M") tick_time }
  text_layer_set_text s1.s_time_layer TextRef.buffer s1

/-- Source `update_date`. -/
def update_date (env : Env) (s : AppState) : AppState :=
  let tick_time := env.localtime
  let s1 := { s with buffer_daymonth := strftime env s.buffer_daymonth 7 (utf8 "%e.%b") tick_time }
  text_layer_set_text s1.s_daymonth_layer TextRef.buffer_daymonth s1

/-- Source `tick_handler`.  `DAY_UNIT` is the SDK's flag constant, declared in
`pebble.h`. -/
def tick_handler (DAY_UNIT : Nat) (env : Env) (tick_time : Tm) (units_changed : Nat)
    (s : AppState) : AppState :=
  let s1 := update_time env s
  let s2 := if units_changed &&& DAY_UNIT ≠ 0 then update_date env s1 else s1
  if tick_time.tm_min.tmod 30 = 0 then
    record SdkCall.app_message_outbox_send
      (record (SdkCall.dict_write_uint8 0 0)
        (record SdkCall.app_message_outbox_begin s2))
  else s2

/-- The body of the `switch` in `inbox_received_callback`, for one tuple. -/
def handleTuple (t : Tuple) (s : AppState) : AppState :=
  if t.key = KEY_TEMPERATURE then
    { s with temperature_buffer :=
        snprintf s.temperature_buffer 8 (formatOutput (utf8 "%dÂ°C") [Arg.int t.int32]) }
  else if t.key = KEY_CONDITIONS then
    { s with conditions_buffer :=
        snprintf s.conditions_buffer 32 (formatOutput (utf8 "%s") [Arg.str t.cstring]) }
  else
    record (SdkCall.app_log AppLogLevel.APP_LOG_LEVEL_ERROR
      (formatOutput (utf8 "Key %d not recognized!") [Arg.int (castInt t.key)])) s

/-- The `while (t != NULL)` loop of `inbox_received_callback`: the tuples in
the order `dict_read_first` and `dict_read_next` deliver them. -/
def readTuples : List Tuple → AppState → AppState
  | [], s => s
  | t :: rest, s => readTuples rest (handleTuple t s)

/-- Source `inbox_received_callback`. -/
def inbox_received_callback (iterator : List Tuple) (s : AppState) : AppState :=
  let s1 := readTuples iterator s
  let out := formatOutput (utf8 "%s, %s")
    [Arg.str s1.temperature_buffer, Arg.str s1.conditions_buffer]
  let s2 := { s1 with weather_layer_buffer := snprintf s1.weather_layer_buffer 32 out }
  text_layer_set_text s2.s_weather_layer TextRef.weather_layer_buffer s2

/-- Source `main_window_load`. -/
def main_window_load (window : Nat) (s : AppState) : AppState :=
  -- Create GBitmap, then set to created BitmapLayer
  let r := create (SdkCall.gbitmap_create_with_resource
    ResourceId.RESOURCE_ID_TUTORIAL_BACKGROUND) s
  let s := { r.2 with s_background_bitmap := r.1 }
  let r := create (SdkCall.bitmap_layer_create ⟨0, 0, 144, 168⟩) s
  let s := { r.2 with s_background_layer := r.1 }
  let s := record (SdkCall.bitmap_layer_set_bitmap s.s_background_layer s.s_background_bitmap) s
  -- Create time TextLayer
  let r := create (SdkCall.text_layer_create ⟨5, 52, 139, 50⟩) s
  let s := { r.2 with s_time_layer := r.1 }
  let s := record (SdkCall.text_layer_set_background_color s.s_time_layer GColor.GColorClear) s
  let s := record (SdkCall.text_layer_set_text_color s.s_time_layer GColor.GColorBlack) s
  -- Create temperature Layer
  let r := create (SdkCall.text_layer_create ⟨0, 130, 144, 25⟩) s
  let s := { r.2 with s_weather_layer := r.1 }
  let s := record (SdkCall.text_layer_set_background_color s.s_weather_layer GColor.GColorClear) s
  let s := record (SdkCall.text_layer_set_text_color s.s_weather_layer GColor.GColorWhite) s
  let s := text_layer_set_text s.s_weather_layer (TextRef.literal (utf8 "Loading..." ++ [0])) s
  -- Create day-month TextLayer
  let r := create (SdkCall.text_layer_create ⟨5, 12, 139, 30⟩) s
  let s := { r.2 with s_daymonth_layer := r.1 }
  let s := record (SdkCall.text_layer_set_background_color s.s_daymonth_layer GColor.GColorBlack) s
  let s := record (SdkCall.text_layer_set_text_color s.s_daymonth_layer GColor.GColorWhite) s
  -- Create GFont
  let r := create (SdkCall.fonts_load_custom_font ResourceId.RESOURCE_ID_FONT_PERFECT_DOS_48) s
  let s := { r.2 with s_time_font := r.1 }
  let r := create (SdkCall.fonts_load_custom_font ResourceId.RESOURCE_ID_FONT_PERFECT_DOS_16) s
  let s := { r.2 with s_weather_font := r.1 }
  let r := create (SdkCall.fonts_load_custom_font ResourceId.RESOURCE_ID_FONT_PERFECT_DOS_24) s
  let s := { r.2 with s_date_font := r.1 }
  -- Apply to TextLayer
  let s := record (SdkCall.text_layer_set_font s.s_time_layer s.s_time_font) s
  let s := record (SdkCall.text_layer_set_font s.s_weather_layer s.s_weather_font) s
  let s := record (SdkCall.text_layer_set_font s.s_daymonth_layer s.s_date_font) s
  -- Improve the layout to be more like a watchface
  let s := record (SdkCall.text_layer_set_text_alignment s.s_time_layer
    GTextAlignment.GTextAlignmentCenter) s
  let s := record (SdkCall.text_layer_set_text_alignment s.s_weather_layer
    GTextAlignment.GTextAlignmentCenter) s
  let s := record (SdkCall.text_layer_set_text_alignment s.s_daymonth_layer
    GTextAlignment.GTextAlignmentCenter) s
  -- Add it as a child layer to the Window's root layer
  let s := record (SdkCall.layer_add_child window s.s_background_layer) s
  let s := record (SdkCall.layer_add_child window s.s_time_layer) s
  let s := record (SdkCall.layer_add_child window s.s_weather_layer) s
  record (SdkCall.layer_add_child window s.s_daymonth_layer) s

/-- Source `main_window_unload`. -/
def main_window_unload (_window : Nat) (s : AppState) : AppState :=
  -- Destroy TextLayer
  let s := text_layer_destroy s.s_time_layer s
  let s := text_layer_destroy s.s_weather_layer s
  let s := text_layer_destroy s.s_daymonth_layer s
  -- Unload GFont
  let s := record (SdkCall.fonts_unload_custom_font s.s_time_font) s
  let s := record (SdkCall.fonts_unload_custom_font s.s_weather_font) s
  let s := record (SdkCall.fonts_unload_custom_font s.s_date_font) s
  -- Destroy GBitmap
  let s := record (SdkCall.gbitmap_destroy s.s_background_bitmap) s
  -- Destroy BitmapLayer
  record (SdkCall.bitmap_layer_destroy s.s_background_layer) s

/-! ## Specification-side definitions -/

/-- The five bytes that follow `%d` in the temperature format of the source. -/
def degreeSuffix : Bytes := [0xC3, 0x82, 0xC2, 0xB0, 67]

/-- The number a string of ASCII digits denotes. -/
def decimalValue (b : Bytes) : Nat := b.foldl (fun acc d => 10 * acc + (d - 48)) 0

/-- The temperature text as the source's `snprintf` stores it in the 8-byte
buffer: at most 7 bytes of the formatted output. -/
def temperatureText (n : Int) : Bytes := (decimal n ++ degreeSuffix).take 7

/-- The last tuple of a dictionary that carries a given key, if any. -/
def lastWith (k : Nat) : List Tuple → Option Tuple
  | [] => none
  | t :: rest =>
    match lastWith k rest with
    | some u => some u
    | none => if t.key = k then some t else none

/-- The text `"<temperature>, <conditions>"` cut to the 31 bytes the 32-byte
output buffer can hold. -/
def weatherText (temperature conditions : Bytes) : Bytes :=
  (temperature ++ utf8 ", " ++ conditions).take 31

/-- The state with its trace of SDK calls forgotten. -/
def eraseTrace (s : AppState) : AppState := { s with trace := [] }

/-- The tuples the `switch` has a case for. -/
def recognized (t : Tuple) : Bool := t.key == KEY_TEMPERATURE || t.key == KEY_CONDITIONS

/-- The text the weather label shows. -/
def weatherLabel (s : AppState) : Bytes := labelText s s.s_weather_layer

/-- Handling a sequence of inbound dictionaries, one callback each. -/
def receiveAll (ds : List (List Tuple)) (s : AppState) : AppState :=
  ds.foldl (fun st d => inbox_received_callback d st) s

/-- The tail of `inbox_received_callback`, after the loop: assemble the full
string and display it. -/
def assembleAndDisplay (s1 : AppState) : AppState :=
  let out := formatOutput (utf8 "%s, %s")
    [Arg.str s1.temperature_buffer, Arg.str s1.conditions_buffer]
  let s2 := { s1 with weather_layer_buffer := snprintf s1.weather_layer_buffer 32 out }
  text_layer_set_text s2.s_weather_layer TextRef.weather_layer_buffer s2

/-- A dictionary whose texts together exceed the 31 bytes of the label. -/
def longReply : List Tuple :=
  [⟨0, -12, []⟩, ⟨1, 0, utf8 "Thunderstorm with heavy rain" ++ [0]⟩]

/-- Two decimal digits, zero-padded. -/
def twoDigits (n : Nat) : Bytes := [48 + n / 10, 48 + n % 10]

/-- The text `HH:MM` of the specification: zero-padded hour, 00..23 on the
24-hour clock and 01..12 on the 12-hour clock, a colon, zero-padded minute. -/
def formatHHMM (is24h : Bool) (hour minute : Nat) : Bytes :=
  twoDigits (if is24h then hour else if hour % 12 = 0 then 12 else hour % 12)
    ++ 58 :: twoDigits minute

/-- The calls that build and send an outbound message. -/
def isOutboxCall : SdkCall → Bool
  | SdkCall.app_message_outbox_begin => true
  | SdkCall.dict_write_uint8 _ _ => true
  | SdkCall.app_message_outbox_send => true
  | _ => false

/-- The text the time label shows. -/
def timeLabel (s : AppState) : Bytes := labelText s s.s_time_layer

/-- The text the date label shows. -/
def dateLabel (s : AppState) : Bytes := labelText s s.s_daymonth_layer

/-- A host environment used to exhibit concrete runs. -/
def sampleEnv : Env :=
  { localtime := ⟨30, 19, 3, 2⟩, clock_is_24h_style := false,
    abmon := fun _ => utf8 "Mar", strftime_overflow := [] }

/-- The state after the window has been loaded at program start. -/
def loadedState : AppState := main_window_load 1 AppState.initial

/-- The loaded state after a first tick that carries the day flag. -/
def tickedState : AppState := tick_handler 8 sampleEnv ⟨30, 19, 3, 2⟩ 10 loadedState

/-- What holds of the text layers once the window is loaded: the three layer
handles differ, the time and date layers point at their own buffers (or at
nothing yet), and the weather layer at neither of those two buffers. -/
def Loaded (s : AppState) : Prop :=
  s.s_time_layer ≠ s.s_daymonth_layer
    ∧ s.s_time_layer ≠ s.s_weather_layer
    ∧ s.s_weather_layer ≠ s.s_daymonth_layer
    ∧ (s.layer_text.lookup s.s_time_layer = none
        ∨ s.layer_text.lookup s.s_time_layer = some TextRef.buffer)
    ∧ (s.layer_text.lookup s.s_daymonth_layer = none
        ∨ s.layer_text.lookup s.s_daymonth_layer = some TextRef.buffer_daymonth)
    ∧ s.layer_text.lookup s.s_weather_layer ≠ some TextRef.buffer
    ∧ s.layer_text.lookup s.s_weather_layer ≠ some TextRef.buffer_daymonth

instance (s : AppState) : Decidable (Loaded s) := by
  unfold Loaded
  infer_instance

/-- The kinds of SDK object the window owns. -/
inductive ResourceKind where
  | textLayer
  | font
  | bitmap
  | bitmapLayer
  deriving DecidableEq, Repr

/-- The object a constructor call creates, if the call is one. -/
def created : SdkCall → Option (ResourceKind × Nat)
  | SdkCall.text_layer_create _ h => some (ResourceKind.textLayer, h)
  | SdkCall.fonts_load_custom_font _ h => some (ResourceKind.font, h)
  | SdkCall.gbitmap_create_with_resource _ h => some (ResourceKind.bitmap, h)
  | SdkCall.bitmap_layer_create _ h => some (ResourceKind.bitmapLayer, h)
  | _ => none

/-- The object a destructor call releases, if the call is one. -/
def released : SdkCall → Option (ResourceKind × Nat)
  | SdkCall.text_layer_destroy h => some (ResourceKind.textLayer, h)
  | SdkCall.fonts_unload_custom_font h => some (ResourceKind.font, h)
  | SdkCall.gbitmap_destroy h => some (ResourceKind.bitmap, h)
  | SdkCall.bitmap_layer_destroy h => some (ResourceKind.bitmapLayer, h)
  | _ => none

/-! ## Lemmas and theorems -/

theorem cstr_not_mem_zero (b : Bytes) : 0 ∉ cstr b := by
  induction b with
  | nil => simp [cstr]
  | cons x xs ih =>
    unfold cstr
    split
    · simp
    · rename_i hx
      simp only [List.mem_cons, not_or]
      exact ⟨fun h => hx h.symm, ih⟩

theorem cstr_append_zero (a r : Bytes) (h : 0 ∉ a) : cstr (a ++ 0 :: r) = a := by
  induction a with
  | nil => simp [cstr]
  | cons x xs ih =>
    simp only [List.mem_cons, not_or] at h
    have hx : x ≠ 0 := fun e => h.1 e.symm
    simp [cstr, hx, ih h.2]

theorem cstr_of_not_mem (a : Bytes) (h : 0 ∉ a) : cstr a = a := by
  induction a with
  | nil => simp [cstr]
  | cons x xs ih =>
    simp only [List.mem_cons, not_or] at h
    have hx : x ≠ 0 := fun e => h.1 e.symm
    simp [cstr, hx, ih h.2]

theorem cstr_replicate_zero (n : Nat) : cstr (List.replicate n 0) = [] := by
  cases n <;> simp [List.replicate, cstr]

theorem not_mem_take {a : Bytes} (k : Nat) (h : 0 ∉ a) : 0 ∉ a.take k :=
  fun hm => h (List.mem_of_mem_take hm)

theorem cstr_snprintf (buf out : Bytes) (size : Nat) (hs : 0 < size) (h : 0 ∉ out) :
    cstr (snprintf buf size out) = out.take (size - 1) := by
  unfold snprintf
  rw [if_neg (by omega)]
  exact cstr_append_zero _ _ (not_mem_take _ h)

theorem natDigits_fuel (f g n : Nat) (hf : n < f) (hg : n < g) :
    natDigits f n = natDigits g n := by
  induction f generalizing g n with
  | zero => omega
  | succ f ih =>
    cases g with
    | zero => omega
    | succ g =>
      unfold natDigits
      split
      · rfl
      · rw [ih g (n / 10) (by omega) (by omega)]

theorem decimalNat_eq (n : Nat) :
    decimalNat n = if n < 10 then [48 + n] else decimalNat (n / 10) ++ [48 + n % 10] := by
  unfold decimalNat
  conv => lhs; unfold natDigits
  split
  · rfl
  · rw [natDigits_fuel n (n / 10 + 1) (n / 10) (by omega) (by omega)]

theorem decimalNat_bytes (n : Nat) : ∀ b ∈ decimalNat n, 48 ≤ b ∧ b ≤ 57 := by
  induction n using Nat.strong_induction_on with
  | _ n ih =>
    rw [decimalNat_eq]
    split
    · intro b hb
      simp only [List.mem_singleton] at hb
      omega
    · intro b hb
      rw [List.mem_append] at hb
      rcases hb with hb | hb
      · exact ih (n / 10) (by omega) b hb
      · simp only [List.mem_singleton] at hb
        omega

theorem decimalNat_length_pos (n : Nat) : 1 ≤ (decimalNat n).length := by
  rw [decimalNat_eq]; split <;> simp

theorem decimalNat_length_one (n : Nat) (h : n < 10) : (decimalNat n).length = 1 := by
  rw [decimalNat_eq, if_pos h]; rfl

theorem decimalNat_length_succ (n : Nat) (h : 10 ≤ n) :
    (decimalNat n).length = (decimalNat (n / 10)).length + 1 := by
  rw [decimalNat_eq, if_neg (by omega)]; simp

theorem decimal_bytes (n : Int) : ∀ b ∈ decimal n, b = 45 ∨ (48 ≤ b ∧ b ≤ 57) := by
  intro b hb
  unfold decimal at hb
  split at hb
  · rw [List.mem_cons] at hb
    rcases hb with hb | hb
    · exact Or.inl hb
    · exact Or.inr (decimalNat_bytes _ b hb)
  · exact Or.inr (decimalNat_bytes _ b hb)

theorem decimal_not_mem_zero (n : Int) : 0 ∉ decimal n := by
  intro h
  rcases decimal_bytes n 0 h with h | h <;> omega

theorem decimalValue_decimalNat (n : Nat) : decimalValue (decimalNat n) = n := by
  induction n using Nat.strong_induction_on with
  | _ n ih =>
    rw [decimalNat_eq]
    split
    · simp [decimalValue]
    · have h := ih (n / 10) (by omega)
      unfold decimalValue at h ⊢
      rw [List.foldl_append, h]
      simp only [List.foldl_cons, List.foldl_nil]
      omega

theorem decimalNat_length_le (k n : Nat) :
    (decimalNat n).length ≤ k + 1 ↔ n < 10 ^ (k + 1) := by
  induction k generalizing n with
  | zero =>
    by_cases h : n < 10
    · simp [decimalNat_length_one n h, h]
    · have := decimalNat_length_succ n (by omega)
      have := decimalNat_length_pos (n / 10)
      constructor
      · intro; omega
      · intro h1; simp at h1; omega
  | succ k ih =>
    by_cases h : n < 10
    · rw [decimalNat_length_one n h]
      have : 10 ^ (k + 1 + 1) = 10 ^ (k + 1) * 10 := by ring
      have : 1 ≤ 10 ^ (k + 1) := Nat.one_le_pow _ _ (by norm_num)
      constructor
      · intro; nlinarith
      · intro; omega
    · rw [decimalNat_length_succ n (by omega)]
      have h2 : 10 ^ (k + 1 + 1) = 10 ^ (k + 1) * 10 := by ring
      rw [Nat.add_le_add_iff_right, ih (n / 10), h2, Nat.div_lt_iff_lt_mul (by norm_num)]

theorem decimal_length_le_two (n : Int) : (decimal n).length ≤ 2 ↔ -9 ≤ n ∧ n ≤ 99 := by
  unfold decimal
  split
  · rename_i h
    have h0 := decimalNat_length_le 0 n.natAbs
    simp only [List.length_cons]
    have : (decimalNat n.natAbs).length + 1 ≤ 2 ↔ (decimalNat n.natAbs).length ≤ 0 + 1 := by omega
    rw [this, h0]
    omega
  · rename_i h
    have h1 := decimalNat_length_le 1 n.natAbs
    simp only [Nat.reduceAdd] at h1
    rw [h1]
    omega

theorem decimal_length_pos (n : Int) : 1 ≤ (decimal n).length := by
  unfold decimal
  split
  · simp
  · exact decimalNat_length_pos _

theorem utf8_temperature_format : utf8 "%dÂ°C" = 37 :: 100 :: degreeSuffix := by decide

theorem utf8_separator : utf8 ", " = [44, 32] := by decide

theorem formatOutput_temperature (n : Int) :
    formatOutput (utf8 "%dÂ°C") [Arg.int n] = decimal n ++ degreeSuffix := by
  rw [utf8_temperature_format]
  simp [formatOutput, degreeSuffix]

theorem formatOutput_conditions (c : Bytes) :
    formatOutput (utf8 "%s") [Arg.str c] = cstr c := by
  have : utf8 "%s" = [37, 115] := by decide
  rw [this]
  simp [formatOutput]

theorem formatOutput_weather (a b : Bytes) :
    formatOutput (utf8 "%s, %s") [Arg.str a, Arg.str b] = cstr a ++ utf8 ", " ++ cstr b := by
  have : utf8 "%s, %s" = [37, 115, 44, 32, 37, 115] := by decide
  rw [this, utf8_separator]
  simp [formatOutput]

theorem degreeSuffix_not_mem_zero : 0 ∉ degreeSuffix := by decide

theorem weather_output_not_mem_zero (a b : Bytes) :
    0 ∉ cstr a ++ utf8 ", " ++ cstr b := by
  rw [utf8_separator]
  simp only [List.mem_append, not_or]
  exact ⟨⟨cstr_not_mem_zero a, by decide⟩, cstr_not_mem_zero b⟩

theorem cstr_temperature (buf : Bytes) (n : Int) :
    cstr (snprintf buf 8 (formatOutput (utf8 "%dÂ°C") [Arg.int n])) = temperatureText n := by
  rw [formatOutput_temperature, cstr_snprintf _ _ 8 (by norm_num)]
  · rfl
  · simp only [List.mem_append, not_or]
    exact ⟨decimal_not_mem_zero n, degreeSuffix_not_mem_zero⟩

theorem cstr_conditions (buf c : Bytes) :
    cstr (snprintf buf 32 (formatOutput (utf8 "%s") [Arg.str c])) = (cstr c).take 31 := by
  rw [formatOutput_conditions, cstr_snprintf _ _ 32 (by norm_num) (cstr_not_mem_zero c)]

theorem cstr_weather (buf a b : Bytes) :
    cstr (snprintf buf 32 (formatOutput (utf8 "%s, %s") [Arg.str a, Arg.str b]))
      = weatherText (cstr a) (cstr b) := by
  rw [formatOutput_weather, cstr_snprintf _ _ 32 (by norm_num) (weather_output_not_mem_zero a b)]
  rfl

theorem handleTuple_temperature (t : Tuple) (s : AppState) :
    cstr (handleTuple t s).temperature_buffer
      = if t.key = KEY_TEMPERATURE then temperatureText t.int32 else cstr s.temperature_buffer := by
  unfold handleTuple
  split
  · exact cstr_temperature _ _
  · split <;> rfl

theorem handleTuple_conditions (t : Tuple) (s : AppState) :
    cstr (handleTuple t s).conditions_buffer
      = if t.key = KEY_CONDITIONS then (cstr t.cstring).take 31 else cstr s.conditions_buffer := by
  unfold handleTuple
  split
  · rename_i h
    have : ¬ t.key = KEY_CONDITIONS := by rw [h]; decide
    rw [if_neg this]
  · split
    · exact cstr_conditions _ _
    · rfl

theorem readTuples_temperature (d : List Tuple) (s : AppState) :
    cstr (readTuples d s).temperature_buffer
      = ((lastWith KEY_TEMPERATURE d).map (fun t => temperatureText t.int32)).getD
          (cstr s.temperature_buffer) := by
  induction d generalizing s with
  | nil => simp [readTuples, lastWith]
  | cons t rest ih =>
    rw [readTuples, ih, lastWith]
    cases lastWith KEY_TEMPERATURE rest with
    | some u => simp
    | none =>
      simp only [Option.map_none', Option.getD_none]
      rw [handleTuple_temperature]
      split <;> simp

theorem readTuples_conditions (d : List Tuple) (s : AppState) :
    cstr (readTuples d s).conditions_buffer
      = ((lastWith KEY_CONDITIONS d).map (fun t => (cstr t.cstring).take 31)).getD
          (cstr s.conditions_buffer) := by
  induction d generalizing s with
  | nil => simp [readTuples, lastWith]
  | cons t rest ih =>
    rw [readTuples, ih, lastWith]
    cases lastWith KEY_CONDITIONS rest with
    | some u => simp
    | none =>
      simp only [Option.map_none', Option.getD_none]
      rw [handleTuple_conditions]
      split <;> simp

/-- The loop touches nothing but the two field buffers and the trace. -/
theorem readTuples_frame (d : List Tuple) (s : AppState) :
    (readTuples d s).s_weather_layer = s.s_weather_layer
      ∧ (readTuples d s).layer_text = s.layer_text
      ∧ (readTuples d s).weather_layer_buffer = s.weather_layer_buffer
      ∧ (readTuples d s).buffer = s.buffer
      ∧ (readTuples d s).buffer_daymonth = s.buffer_daymonth := by
  induction d generalizing s with
  | nil => simp [readTuples]
  | cons t rest ih =>
    rw [readTuples]
    have h := ih (handleTuple t s)
    have ht : (handleTuple t s).s_weather_layer = s.s_weather_layer
        ∧ (handleTuple t s).layer_text = s.layer_text
        ∧ (handleTuple t s).weather_layer_buffer = s.weather_layer_buffer
        ∧ (handleTuple t s).buffer = s.buffer
        ∧ (handleTuple t s).buffer_daymonth = s.buffer_daymonth := by
      unfold handleTuple
      split
      · simp
      · split <;> simp [record]
    rw [ht.1, ht.2.1, ht.2.2.1, ht.2.2.2.1, ht.2.2.2.2] at h
    exact h

theorem labelText_set (s : AppState) (layer : Nat) (r : TextRef) :
    labelText (text_layer_set_text layer r s) layer = deref s r := by
  unfold labelText text_layer_set_text record
  simp only [List.lookup_cons, beq_self_eq_true]
  cases r <;> rfl

theorem inbox_buffers (d : List Tuple) (s : AppState) :
    (inbox_received_callback d s).temperature_buffer = (readTuples d s).temperature_buffer
      ∧ (inbox_received_callback d s).conditions_buffer = (readTuples d s).conditions_buffer
      ∧ (inbox_received_callback d s).s_weather_layer = s.s_weather_layer :=
  ⟨rfl, rfl, (readTuples_frame d s).1⟩

theorem inbox_label (d : List Tuple) (s : AppState) :
    labelText (inbox_received_callback d s) (inbox_received_callback d s).s_weather_layer
      = weatherText (cstr (inbox_received_callback d s).temperature_buffer)
          (cstr (inbox_received_callback d s).conditions_buffer) := by
  rw [(inbox_buffers d s).1, (inbox_buffers d s).2.1]
  rw [← cstr_weather (readTuples d s).weather_layer_buffer]
  have h3 : (inbox_received_callback d s).s_weather_layer = (readTuples d s).s_weather_layer := rfl
  rw [h3]
  unfold inbox_received_callback
  simp only []
  rw [labelText_set]
  rfl

theorem temperatureText_split (n : Int) :
    temperatureText n
      = (decimal n).take 7 ++ degreeSuffix.take (7 - (decimal n).length) := by
  unfold temperatureText
  exact List.take_append_eq_append_take

theorem temperatureText_length_le (n : Int) : (temperatureText n).length ≤ 7 := by
  unfold temperatureText
  rw [List.length_take]
  exact Nat.min_le_left _ _

theorem temperatureText_complete_iff (n : Int) :
    temperatureText n = decimal n ++ degreeSuffix ↔ -9 ≤ n ∧ n ≤ 99 := by
  unfold temperatureText
  rw [List.take_eq_self_iff, ← decimal_length_le_two]
  simp only [List.length_append, degreeSuffix, List.length_cons, List.length_nil]
  omega

theorem temperatureText_not_mem_of_byte (n : Int) (b : Nat)
    (hb : b ≠ 45 ∧ ¬ (48 ≤ b ∧ b ≤ 57)) (hs : b ∉ degreeSuffix.take (7 - (decimal n).length)) :
    b ∉ temperatureText n := by
  rw [temperatureText_split, List.mem_append]
  rintro (h | h)
  · rcases decimal_bytes n b (List.mem_of_mem_take h) with h1 | h1
    · exact hb.1 h1
    · exact hb.2 h1
  · exact hs h

theorem temperatureText_last_iff (n : Int) :
    (temperatureText n).getLast? = some 67 ↔ -9 ≤ n ∧ n ≤ 99 := by
  constructor
  · intro h
    by_contra hr
    rw [← decimal_length_le_two] at hr
    have hm : 67 ∈ temperatureText n := List.mem_of_getLast?_eq_some h
    have hcase : 7 - (decimal n).length = 0 ∨ 7 - (decimal n).length = 1
        ∨ 7 - (decimal n).length = 2 ∨ 7 - (decimal n).length = 3
        ∨ 7 - (decimal n).length = 4 := by omega
    refine temperatureText_not_mem_of_byte n 67 (by omega) ?_ hm
    rcases hcase with e | e | e | e | e <;> rw [e] <;> decide
  · intro hr
    rw [(temperatureText_complete_iff n).2 hr,
      List.getLast?_append_of_ne_nil _ (by decide)]
    rfl

theorem temperatureText_degree_cut (n : Int) (h : 4 ≤ (decimal n).length) :
    0xB0 ∉ temperatureText n := by
  have hcase : 7 - (decimal n).length = 0 ∨ 7 - (decimal n).length = 1
      ∨ 7 - (decimal n).length = 2 ∨ 7 - (decimal n).length = 3 := by omega
  refine temperatureText_not_mem_of_byte n 0xB0 (by omega) ?_
  rcases hcase with e | e | e | e <;> rw [e] <;> decide

theorem lastWith_append (k : Nat) (a b : List Tuple) :
    lastWith k (a ++ b) = (lastWith k b).or (lastWith k a) := by
  induction a with
  | nil => cases h : lastWith k b <;> simp [lastWith, h]
  | cons t rest ih =>
    rw [List.cons_append, lastWith, ih, lastWith]
    cases lastWith k b <;> simp

theorem inbox_eq_assemble (d : List Tuple) (s : AppState) :
    inbox_received_callback d s = assembleAndDisplay (readTuples d s) := rfl

theorem eraseTrace_handleTuple (t : Tuple) (s s' : AppState)
    (h : eraseTrace s = eraseTrace s') :
    eraseTrace (handleTuple t s) = eraseTrace (handleTuple t s') := by
  cases s; cases s'
  simp only [eraseTrace, AppState.mk.injEq] at h
  obtain ⟨h1, h2, h3, h4, h5, h6, h7, h8, h9, h10, h11, h12, h13, h14, h15, -⟩ := h
  subst h1 h2 h3 h4 h5 h6 h7 h8 h9 h10 h11 h12 h13 h14 h15
  unfold handleTuple
  split
  · simp [eraseTrace]
  · split <;> simp [eraseTrace, record]

theorem eraseTrace_readTuples (d : List Tuple) (s s' : AppState)
    (h : eraseTrace s = eraseTrace s') :
    eraseTrace (readTuples d s) = eraseTrace (readTuples d s') := by
  induction d generalizing s s' with
  | nil => exact h
  | cons t rest ih => exact ih _ _ (eraseTrace_handleTuple t s s' h)

theorem eraseTrace_assemble (s s' : AppState) (h : eraseTrace s = eraseTrace s') :
    eraseTrace (assembleAndDisplay s) = eraseTrace (assembleAndDisplay s') := by
  cases s; cases s'
  simp only [eraseTrace, AppState.mk.injEq] at h
  obtain ⟨h1, h2, h3, h4, h5, h6, h7, h8, h9, h10, h11, h12, h13, h14, h15, -⟩ := h
  subst h1 h2 h3 h4 h5 h6 h7 h8 h9 h10 h11 h12 h13 h14 h15
  simp [eraseTrace, assembleAndDisplay, text_layer_set_text, record]

theorem eraseTrace_unrecognized (t : Tuple) (s : AppState) (h : recognized t = false) :
    eraseTrace (handleTuple t s) = eraseTrace s := by
  unfold recognized at h
  simp only [Bool.or_eq_false_iff, beq_eq_false_iff_ne, ne_eq] at h
  unfold handleTuple
  rw [if_neg h.1, if_neg h.2]
  rfl

theorem eraseTrace_readTuples_filter (d : List Tuple) (s : AppState) :
    eraseTrace (readTuples d s) = eraseTrace (readTuples (d.filter recognized) s) := by
  induction d generalizing s with
  | nil => rfl
  | cons t rest ih =>
    by_cases h : recognized t = true
    · rw [List.filter_cons_of_pos h]
      exact ih _
    · rw [List.filter_cons_of_neg h, readTuples,
        eraseTrace_readTuples rest _ s (eraseTrace_unrecognized t s (by simpa using h))]
      exact ih s

theorem weatherLabel_eraseTrace (s s' : AppState) (h : eraseTrace s = eraseTrace s') :
    weatherLabel s = weatherLabel s' := by
  cases s; cases s'
  simp only [eraseTrace, AppState.mk.injEq] at h
  obtain ⟨h1, h2, h3, h4, h5, h6, h7, h8, h9, h10, h11, h12, h13, h14, h15, -⟩ := h
  subst h1 h2 h3 h4 h5 h6 h7 h8 h9 h10 h11 h12 h13 h14 h15
  unfold weatherLabel labelText
  simp only []
  split <;> rfl

theorem weatherLabel_inbox (d : List Tuple) (s : AppState) :
    weatherLabel (inbox_received_callback d s)
      = weatherText
          (((lastWith KEY_TEMPERATURE d).map (fun t => temperatureText t.int32)).getD
            (cstr s.temperature_buffer))
          (((lastWith KEY_CONDITIONS d).map (fun t => (cstr t.cstring).take 31)).getD
            (cstr s.conditions_buffer)) := by
  unfold weatherLabel
  rw [inbox_label, (inbox_buffers d s).1, (inbox_buffers d s).2.1, readTuples_temperature,
    readTuples_conditions]

theorem decimal_length_le_three (n : Int) : (decimal n).length ≤ 3 ↔ -99 ≤ n ∧ n ≤ 999 := by
  unfold decimal
  split
  · have h1 := decimalNat_length_le 1 n.natAbs
    simp only [List.length_cons, Nat.reduceAdd] at h1 ⊢
    have : (decimalNat n.natAbs).length + 1 ≤ 3 ↔ (decimalNat n.natAbs).length ≤ 2 := by omega
    rw [this, h1]
    omega
  · have h2 := decimalNat_length_le 2 n.natAbs
    simp only [Nat.reduceAdd] at h2
    rw [h2]
    omega

theorem receiveAll_temperature (ds : List (List Tuple)) (s : AppState) :
    cstr (receiveAll ds s).temperature_buffer
      = ((lastWith KEY_TEMPERATURE ds.flatten).map (fun t => temperatureText t.int32)).getD
          (cstr s.temperature_buffer) := by
  induction ds generalizing s with
  | nil => simp [receiveAll, lastWith]
  | cons d rest ih =>
    have h : receiveAll (d :: rest) s = receiveAll rest (inbox_received_callback d s) := rfl
    rw [h, ih, (inbox_buffers d s).1, readTuples_temperature, List.flatten_cons, lastWith_append]
    cases lastWith KEY_TEMPERATURE rest.flatten <;> simp

theorem receiveAll_conditions (ds : List (List Tuple)) (s : AppState) :
    cstr (receiveAll ds s).conditions_buffer
      = ((lastWith KEY_CONDITIONS ds.flatten).map (fun t => (cstr t.cstring).take 31)).getD
          (cstr s.conditions_buffer) := by
  induction ds generalizing s with
  | nil => simp [receiveAll, lastWith]
  | cons d rest ih =>
    have h : receiveAll (d :: rest) s = receiveAll rest (inbox_received_callback d s) := rfl
    rw [h, ih, (inbox_buffers d s).2.1, readTuples_conditions, List.flatten_cons, lastWith_append]
    cases lastWith KEY_CONDITIONS rest.flatten <;> simp

/-- Across any sequence of inbound dictionaries each weather buffer holds the
formatted value of the most recently received field with its key, or what it
held before when no such field arrived; the two are independent. -/
theorem weather_buffers_hold_latest (ds : List (List Tuple)) (s : AppState) :
    cstr (receiveAll ds s).temperature_buffer
        = ((lastWith KEY_TEMPERATURE ds.flatten).map (fun t => temperatureText t.int32)).getD
            (cstr s.temperature_buffer)
      ∧ cstr (receiveAll ds s).conditions_buffer
        = ((lastWith KEY_CONDITIONS ds.flatten).map (fun t => (cstr t.cstring).take 31)).getD
            (cstr s.conditions_buffer) :=
  ⟨receiveAll_temperature ds s, receiveAll_conditions ds s⟩

/-- C1.  On the dictionary key 0 = 21, key 1 = "Cloudy" the callback makes the
weather label the bytes of "21Â°C, Cloudy" (the format string of the source
holds the four bytes C3 82 C2 B0 between the number and the letter C), which is
not the text "21°C, Cloudy" with a degree sign. -/
theorem C1_label_21_cloudy (s : AppState) :
    weatherLabel (inbox_received_callback
        [⟨0, 21, [21, 0, 0, 0]⟩, ⟨1, 1970236483, utf8 "Cloudy" ++ [0]⟩] s)
      = utf8 "21Â°C, Cloudy"
    ∧ weatherLabel (inbox_received_callback
        [⟨0, 21, [21, 0, 0, 0]⟩, ⟨1, 1970236483, utf8 "Cloudy" ++ [0]⟩] s)
      ≠ utf8 "21°C, Cloudy" := by
  rw [weatherLabel_inbox]
  have h0 : lastWith KEY_TEMPERATURE
      [⟨0, 21, [21, 0, 0, 0]⟩, ⟨1, 1970236483, utf8 "Cloudy" ++ [0]⟩]
      = some ⟨0, 21, [21, 0, 0, 0]⟩ := by decide
  have h1 : lastWith KEY_CONDITIONS
      [⟨0, 21, [21, 0, 0, 0]⟩, ⟨1, 1970236483, utf8 "Cloudy" ++ [0]⟩]
      = some ⟨1, 1970236483, utf8 "Cloudy" ++ [0]⟩ := by decide
  rw [h0, h1]
  simp only [Option.map_some', Option.getD_some]
  constructor <;> decide

/-- C2.  After a temperature of 21 has been received, a dictionary holding only
key 1 = "Sunny" makes the weather label the bytes of "21Â°C, Sunny": the
temperature text is retained, but it is not the text "21°C" with a degree
sign. -/
theorem C2_label_21_sunny (s : AppState) :
    weatherLabel (inbox_received_callback [⟨1, 1852732755, utf8 "Sunny" ++ [0]⟩]
        (inbox_received_callback [⟨0, 21, [21, 0, 0, 0]⟩] s))
      = utf8 "21Â°C, Sunny"
    ∧ weatherLabel (inbox_received_callback [⟨1, 1852732755, utf8 "Sunny" ++ [0]⟩]
        (inbox_received_callback [⟨0, 21, [21, 0, 0, 0]⟩] s))
      ≠ utf8 "21°C, Sunny" := by
  rw [weatherLabel_inbox, (inbox_buffers _ s).1, readTuples_temperature]
  have h0 : lastWith KEY_TEMPERATURE [(⟨1, 1852732755, utf8 "Sunny" ++ [0]⟩ : Tuple)] = none := by
    decide
  have h1 : lastWith KEY_CONDITIONS [(⟨1, 1852732755, utf8 "Sunny" ++ [0]⟩ : Tuple)]
      = some ⟨1, 1852732755, utf8 "Sunny" ++ [0]⟩ := by decide
  have h2 : lastWith KEY_TEMPERATURE [(⟨0, 21, [21, 0, 0, 0]⟩ : Tuple)]
      = some ⟨0, 21, [21, 0, 0, 0]⟩ := by decide
  rw [h0, h1, h2]
  simp only [Option.map_some', Option.getD_some, Option.map_none', Option.getD_none]
  constructor <;> decide

theorem callsOf_of_trace (f : AppState → AppState) (s : AppState) (l : List SdkCall)
    (h : (f s).trace = s.trace ++ l) : callsOf f s = l := by
  unfold callsOf
  rw [h, List.drop_left]

theorem lastWith_filter_recognized (k : Nat) (hk : k = KEY_TEMPERATURE ∨ k = KEY_CONDITIONS)
    (d : List Tuple) : lastWith k (d.filter recognized) = lastWith k d := by
  induction d with
  | nil => rfl
  | cons t rest ih =>
    by_cases h : recognized t = true
    · rw [List.filter_cons_of_pos h, lastWith, lastWith, ih]
    · rw [List.filter_cons_of_neg h, lastWith, ih]
      have hne : ¬ t.key = k := by
        intro e
        apply h
        unfold recognized
        rcases hk with hk | hk <;> simp [e, hk]
      rw [if_neg hne]
      cases lastWith k rest <;> rfl

theorem handleTuple_trace (t : Tuple) (s : AppState) :
    (handleTuple t s).trace
      = s.trace ++ (if recognized t then []
          else [SdkCall.app_log AppLogLevel.APP_LOG_LEVEL_ERROR
            (formatOutput (utf8 "Key %d not recognized!") [Arg.int (castInt t.key)])]) := by
  unfold handleTuple recognized
  by_cases h0 : t.key = KEY_TEMPERATURE
  · rw [if_pos h0]
    simp [h0]
  · by_cases h1 : t.key = KEY_CONDITIONS
    · rw [if_neg h0, if_pos h1]
      simp [h1]
    · rw [if_neg h0, if_neg h1]
      simp [h0, h1, record]

theorem readTuples_trace (d : List Tuple) (s : AppState) :
    (readTuples d s).trace
      = s.trace ++ (d.filter (fun t => !recognized t)).map (fun t =>
          SdkCall.app_log AppLogLevel.APP_LOG_LEVEL_ERROR
            (formatOutput (utf8 "Key %d not recognized!") [Arg.int (castInt t.key)])) := by
  induction d generalizing s with
  | nil => simp [readTuples]
  | cons t rest ih =>
    rw [readTuples, ih, handleTuple_trace]
    by_cases h : recognized t = true
    · simp [h]
    · have h' : recognized t = false := by simpa using h
      simp [h']

theorem inbox_calls (d : List Tuple) (s : AppState) :
    callsOf (inbox_received_callback d) s
      = (d.filter (fun t => !recognized t)).map (fun t =>
          SdkCall.app_log AppLogLevel.APP_LOG_LEVEL_ERROR
            (formatOutput (utf8 "Key %d not recognized!") [Arg.int (castInt t.key)]))
        ++ [SdkCall.text_layer_set_text s.s_weather_layer TextRef.weather_layer_buffer] := by
  apply callsOf_of_trace
  have e : (inbox_received_callback d s).trace
      = (readTuples d s).trace
        ++ [SdkCall.text_layer_set_text (readTuples d s).s_weather_layer
          TextRef.weather_layer_buffer] := rfl
  rw [e, readTuples_trace, (readTuples_frame d s).1, List.append_assoc]

/-- C3.  For every inbound dictionary the callback leaves every buffer, every
text pointer and the weather label exactly as it does for the same dictionary
with the tuples of unrecognized key removed; only the trace (the error log)
differs.  The traversal reaches every tuple: each buffer holds the formatted
value of the last tuple with its key anywhere in the dictionary (or what it
held before), the label is assembled from these, the calls made are one error
log per unrecognized tuple followed by the update of the weather label, and on
key 0 = 21, key 5, key 1 = "A" the label is "21Â°C, A". -/
theorem C3_unrecognized_keys_skipped (d : List Tuple) (s : AppState) :
    eraseTrace (inbox_received_callback d s)
        = eraseTrace (inbox_received_callback (d.filter recognized) s)
      ∧ (inbox_received_callback d s).temperature_buffer
        = (inbox_received_callback (d.filter recognized) s).temperature_buffer
      ∧ (inbox_received_callback d s).conditions_buffer
        = (inbox_received_callback (d.filter recognized) s).conditions_buffer
      ∧ (inbox_received_callback d s).weather_layer_buffer
        = (inbox_received_callback (d.filter recognized) s).weather_layer_buffer
      ∧ weatherLabel (inbox_received_callback d s)
        = weatherLabel (inbox_received_callback (d.filter recognized) s)
      ∧ weatherLabel (inbox_received_callback d s)
        = weatherText (cstr (inbox_received_callback d s).temperature_buffer)
            (cstr (inbox_received_callback d s).conditions_buffer)
      ∧ cstr (inbox_received_callback d s).temperature_buffer
        = ((lastWith KEY_TEMPERATURE d).map
            (fun t => (decimal t.int32 ++ [0xC3, 0x82, 0xC2, 0xB0, 67]).take 7)).getD
            (cstr s.temperature_buffer)
      ∧ cstr (inbox_received_callback d s).conditions_buffer
        = ((lastWith KEY_CONDITIONS d).map (fun t => (cstr t.cstring).take 31)).getD
            (cstr s.conditions_buffer)
      ∧ lastWith KEY_TEMPERATURE (d.filter recognized) = lastWith KEY_TEMPERATURE d
      ∧ lastWith KEY_CONDITIONS (d.filter recognized) = lastWith KEY_CONDITIONS d
      ∧ callsOf (inbox_received_callback d) s
        = (d.filter (fun t => !recognized t)).map (fun t =>
            SdkCall.app_log AppLogLevel.APP_LOG_LEVEL_ERROR
              (formatOutput (utf8 "Key %d not recognized!") [Arg.int (castInt t.key)]))
          ++ [SdkCall.text_layer_set_text s.s_weather_layer TextRef.weather_layer_buffer]
      ∧ weatherLabel (inbox_received_callback
          [⟨0, 21, [21, 0, 0, 0]⟩, ⟨5, 0, [0]⟩, ⟨1, 65, [65, 0]⟩] s)
        = utf8 "21Â°C, A" := by
  have h : eraseTrace (inbox_received_callback d s)
      = eraseTrace (inbox_received_callback (d.filter recognized) s) := by
    rw [inbox_eq_assemble, inbox_eq_assemble]
    exact eraseTrace_assemble _ _ (eraseTrace_readTuples_filter d s)
  refine ⟨h, ?_, ?_, ?_, weatherLabel_eraseTrace _ _ h, inbox_label d s, ?_, ?_,
    lastWith_filter_recognized _ (Or.inl rfl) d, lastWith_filter_recognized _ (Or.inr rfl) d,
    inbox_calls d s, ?_⟩
  · have e := congrArg AppState.temperature_buffer h
    exact e
  · have e := congrArg AppState.conditions_buffer h
    exact e
  · have e := congrArg AppState.weather_layer_buffer h
    exact e
  · rw [(inbox_buffers d s).1, readTuples_temperature]
    rfl
  · rw [(inbox_buffers d s).2.1, readTuples_conditions]
  · rw [weatherLabel_inbox]
    have h0 : lastWith KEY_TEMPERATURE
        [⟨0, 21, [21, 0, 0, 0]⟩, ⟨5, 0, [0]⟩, ⟨1, 65, [65, 0]⟩]
        = some ⟨0, 21, [21, 0, 0, 0]⟩ := by decide
    have h1 : lastWith KEY_CONDITIONS
        [⟨0, 21, [21, 0, 0, 0]⟩, ⟨5, 0, [0]⟩, ⟨1, 65, [65, 0]⟩]
        = some ⟨1, 65, [65, 0]⟩ := by decide
    rw [h0, h1]
    simp only [Option.map_some', Option.getD_some]
    decide

theorem weatherText_cut (a b : Bytes) (h : a.length ≤ 7) :
    weatherText a b = a ++ utf8 ", " ++ b.take (29 - a.length) := by
  unfold weatherText
  rw [List.take_append_eq_append_take, utf8_separator]
  have hl : (a ++ [44, 32]).length = a.length + 2 := by simp
  rw [List.take_of_length_le (by omega), hl]
  congr 2
  omega

/-- C10.  The temperature text the callback stores for a received temperature
`n` is the first 7 bytes of the decimal form of `n` followed by the five bytes
C3 82 C2 B0 43 of the format string.  It is complete, and ends in the letter C,
exactly when -9 ≤ n ≤ 99; a decimal form has 4 or more characters exactly when
n ≤ -100 or 1000 ≤ n, and then the byte sequence C3 82 C2 B0 is cut. -/
theorem C10_temperature_text (d : List Tuple) (s : AppState) (t : Tuple)
    (h : lastWith KEY_TEMPERATURE d = some t) :
    cstr (inbox_received_callback d s).temperature_buffer
        = (decimal t.int32 ++ [0xC3, 0x82, 0xC2, 0xB0, 67]).take 7
      ∧ (cstr (inbox_received_callback d s).temperature_buffer
          = decimal t.int32 ++ [0xC3, 0x82, 0xC2, 0xB0, 67] ↔ -9 ≤ t.int32 ∧ t.int32 ≤ 99)
      ∧ ((cstr (inbox_received_callback d s).temperature_buffer).getLast? = some 67
          ↔ -9 ≤ t.int32 ∧ t.int32 ≤ 99)
      ∧ (4 ≤ (decimal t.int32).length ↔ t.int32 ≤ -100 ∨ 1000 ≤ t.int32)
      ∧ (4 ≤ (decimal t.int32).length →
          ¬ [0xC3, 0x82, 0xC2, 0xB0] <:+: cstr (inbox_received_callback d s).temperature_buffer) := by
  have e : cstr (inbox_received_callback d s).temperature_buffer = temperatureText t.int32 := by
    rw [(inbox_buffers d s).1, readTuples_temperature, h]
    rfl
  rw [e]
  refine ⟨rfl, temperatureText_complete_iff _, temperatureText_last_iff _, ?_, ?_⟩
  · have h3 := decimal_length_le_three t.int32
    constructor
    · intro h4
      by_contra hc
      have : (decimal t.int32).length ≤ 3 := h3.2 (by omega)
      omega
    · intro h4
      by_contra hc
      have := h3.1 (by omega)
      omega
  · intro h4 hin
    exact temperatureText_degree_cut _ h4 (hin.subset (by simp))

theorem C10_temperature_text_witness :
    lastWith KEY_TEMPERATURE [⟨0, -120, []⟩] = some ⟨0, -120, []⟩
      ∧ 4 ≤ (decimal (-120)).length
      ∧ cstr (inbox_received_callback [⟨0, -120, []⟩] AppState.initial).temperature_buffer
        = (decimal (-120) ++ [0xC3, 0x82, 0xC2, 0xB0, 67]).take 7
      ∧ ¬ [0xC3, 0x82, 0xC2, 0xB0]
          <:+: cstr (inbox_received_callback [⟨0, -120, []⟩] AppState.initial).temperature_buffer :=
  ⟨by decide, by decide,
    (C10_temperature_text [⟨0, -120, []⟩] AppState.initial ⟨0, -120, []⟩ (by decide)).1,
    (C10_temperature_text [⟨0, -120, []⟩] AppState.initial ⟨0, -120, []⟩ (by decide)).2.2.2.2
      (by decide)⟩

/-- C7.  After every call of the callback the weather label is the first 31
bytes of temperature text, separator and conditions text; it is the whole
concatenation exactly when that is at most 31 bytes long, it never exceeds 31
bytes, the conditions buffer holds the first 31 bytes of the conditions string
received last in the dictionary (and is unchanged when there is none), and with
a temperature text of at most 7 bytes only the conditions text is cut. -/
theorem C7_weather_label_truncation (d : List Tuple) (s : AppState) :
    weatherLabel (inbox_received_callback d s)
        = (cstr (inbox_received_callback d s).temperature_buffer ++ utf8 ", "
            ++ cstr (inbox_received_callback d s).conditions_buffer).take 31
      ∧ (weatherLabel (inbox_received_callback d s)
          = cstr (inbox_received_callback d s).temperature_buffer ++ utf8 ", "
            ++ cstr (inbox_received_callback d s).conditions_buffer
          ↔ (cstr (inbox_received_callback d s).temperature_buffer ++ utf8 ", "
            ++ cstr (inbox_received_callback d s).conditions_buffer).length ≤ 31)
      ∧ (weatherLabel (inbox_received_callback d s)).length ≤ 31
      ∧ (∀ t, lastWith KEY_CONDITIONS d = some t →
          cstr (inbox_received_callback d s).conditions_buffer = (cstr t.cstring).take 31)
      ∧ (lastWith KEY_CONDITIONS d = none →
          cstr (inbox_received_callback d s).conditions_buffer = cstr s.conditions_buffer)
      ∧ ((cstr (inbox_received_callback d s).temperature_buffer).length ≤ 7 →
          weatherLabel (inbox_received_callback d s)
            = cstr (inbox_received_callback d s).temperature_buffer ++ utf8 ", "
              ++ (cstr (inbox_received_callback d s).conditions_buffer).take
                (29 - (cstr (inbox_received_callback d s).temperature_buffer).length)) := by
  have e : weatherLabel (inbox_received_callback d s)
      = (cstr (inbox_received_callback d s).temperature_buffer ++ utf8 ", "
          ++ cstr (inbox_received_callback d s).conditions_buffer).take 31 := inbox_label d s
  refine ⟨e, ?_, ?_, ?_, ?_, ?_⟩
  · rw [e]
    exact List.take_eq_self_iff _
  · rw [e, List.length_take]
    exact Nat.min_le_left _ _
  · intro t ht
    rw [(inbox_buffers d s).2.1, readTuples_conditions, ht]
    rfl
  · intro hn
    rw [(inbox_buffers d s).2.1, readTuples_conditions, hn]
    rfl
  · intro hl
    rw [e]
    exact weatherText_cut _ _ hl

theorem C7_weather_label_truncation_witness :
    (cstr (inbox_received_callback longReply AppState.initial).temperature_buffer).length ≤ 7
      ∧ weatherLabel (inbox_received_callback longReply AppState.initial)
        = cstr (inbox_received_callback longReply AppState.initial).temperature_buffer ++ utf8 ", "
          ++ (cstr (inbox_received_callback longReply AppState.initial).conditions_buffer).take
            (29 - (cstr (inbox_received_callback longReply AppState.initial).temperature_buffer).length) :=
  ⟨by decide, (C7_weather_label_truncation longReply AppState.initial).2.2.2.2.2 (by decide)⟩

set_option maxRecDepth 100000 in
theorem pad2_zero_nat : ∀ k : Nat, k < 100 → pad2 48 (Int.ofNat k) = twoDigits k := by decide

theorem pad2_zero (n : Int) (h0 : 0 ≤ n) (h1 : n < 100) : pad2 48 n = twoDigits n.toNat := by
  have h := pad2_zero_nat n.toNat (by omega)
  have e : Int.ofNat n.toNat = n := Int.toNat_of_nonneg h0
  rwa [e] at h

theorem hour12_eq (h : Int) (h0 : 0 ≤ h) :
    hour12 h = ((if h.toNat % 12 = 0 then 12 else h.toNat % 12 : Nat) : Int) := by
  unfold hour12
  rw [Int.tmod_eq_emod h0 (by norm_num)]
  split <;> split <;> omega

theorem twoDigits_not_mem_zero (n : Nat) : 0 ∉ twoDigits n := by
  unfold twoDigits
  simp only [List.mem_cons, List.mem_singleton, List.not_mem_nil, or_false, not_or]
  omega

theorem formatHHMM_not_mem_zero (b : Bool) (h m : Nat) : 0 ∉ formatHHMM b h m := by
  unfold formatHHMM
  simp only [List.mem_append, List.mem_cons, not_or]
  exact ⟨twoDigits_not_mem_zero _, by omega, twoDigits_not_mem_zero _⟩

theorem formatHHMM_length (b : Bool) (h m : Nat) : (formatHHMM b h m).length = 5 := by
  simp [formatHHMM, twoDigits]

theorem strftimeOutput_24h (abmon : Int → Bytes) (tm : Tm) :
    strftimeOutput abmon (utf8 "%H:%M") tm = pad2 48 tm.tm_hour ++ 58 :: pad2 48 tm.tm_min := by
  have e24 : utf8 "%H:%M" = [37, 72, 58, 37, 77] := by decide
  rw [e24]
  simp [strftimeOutput, strftimeConversion]

theorem strftimeOutput_12h (abmon : Int → Bytes) (tm : Tm) :
    strftimeOutput abmon (utf8 "%I:%M") tm
      = pad2 48 (hour12 tm.tm_hour) ++ 58 :: pad2 48 tm.tm_min := by
  have e12 : utf8 "%I:%M" = [37, 73, 58, 37, 77] := by decide
  rw [e12]
  simp [strftimeOutput, strftimeConversion]

theorem strftimeOutput_date (abmon : Int → Bytes) (tm : Tm) :
    strftimeOutput abmon (utf8 "%e.%b") tm = pad2 32 tm.tm_mday ++ 46 :: abmon tm.tm_mon := by
  have e : utf8 "%e.%b" = [37, 101, 46, 37, 98] := by decide
  rw [e]
  simp [strftimeOutput, strftimeConversion]

theorem strftimeOutput_time (env : Env) (hh : 0 ≤ env.localtime.tm_hour ∧ env.localtime.tm_hour ≤ 23)
    (hm : 0 ≤ env.localtime.tm_min ∧ env.localtime.tm_min ≤ 59) :
    strftimeOutput env.abmon
        (if env.clock_is_24h_style then utf8 "%H:%M" else utf8 "%I:%M") env.localtime
      = formatHHMM env.clock_is_24h_style env.localtime.tm_hour.toNat
          env.localtime.tm_min.toNat := by
  have pm := pad2_zero env.localtime.tm_min hm.1 (by omega)
  cases env.clock_is_24h_style
  · have e : pad2 48 (hour12 env.localtime.tm_hour)
        = twoDigits (if env.localtime.tm_hour.toNat % 12 = 0 then 12
            else env.localtime.tm_hour.toNat % 12) := by
      rw [hour12_eq _ hh.1]
      have := pad2_zero ((if env.localtime.tm_hour.toNat % 12 = 0 then 12
            else env.localtime.tm_hour.toNat % 12 : Nat) : Int) (by omega)
        (by split <;> omega)
      rw [this, Int.toNat_ofNat]
    rw [if_neg (by decide), strftimeOutput_12h, e, pm]
    rfl
  · have ph := pad2_zero env.localtime.tm_hour hh.1 (by omega)
    rw [if_pos rfl, strftimeOutput_24h, ph, pm]
    rfl

theorem cstr_strftime (env : Env) (buf format : Bytes) (maxsize : Nat) (tm : Tm)
    (hfit : (strftimeOutput env.abmon format tm).length + 1 ≤ maxsize)
    (h0 : 0 ∉ strftimeOutput env.abmon format tm) :
    cstr (strftime env buf maxsize format tm) = strftimeOutput env.abmon format tm := by
  unfold strftime
  rw [if_pos hfit]
  exact cstr_append_zero _ _ h0

theorem update_time_buffer_eq (env : Env) (s : AppState) :
    (update_time env s).buffer
      = strftime env s.buffer 6
          (if env.clock_is_24h_style then utf8 "%H:%M" else utf8 "%I:%M") env.localtime := by
  unfold update_time
  cases env.clock_is_24h_style <;> rfl

theorem update_time_buffer (env : Env) (s : AppState)
    (hh : 0 ≤ env.localtime.tm_hour ∧ env.localtime.tm_hour ≤ 23)
    (hm : 0 ≤ env.localtime.tm_min ∧ env.localtime.tm_min ≤ 59) :
    cstr (update_time env s).buffer
      = formatHHMM env.clock_is_24h_style env.localtime.tm_hour.toNat
          env.localtime.tm_min.toNat := by
  rw [update_time_buffer_eq, cstr_strftime, strftimeOutput_time env hh hm]
  · rw [strftimeOutput_time env hh hm, formatHHMM_length]
  · rw [strftimeOutput_time env hh hm]
    exact formatHHMM_not_mem_zero _ _ _

theorem update_time_label (env : Env) (s : AppState) :
    timeLabel (update_time env s) = cstr (update_time env s).buffer := by
  unfold timeLabel update_time
  simp only []
  cases env.clock_is_24h_style <;> exact labelText_set _ _ _

theorem update_time_trace (env : Env) (s : AppState) :
    (update_time env s).trace
      = s.trace ++ [SdkCall.text_layer_set_text s.s_time_layer TextRef.buffer] := by
  unfold update_time
  cases env.clock_is_24h_style <;> rfl

theorem update_time_layer_text (env : Env) (s : AppState) :
    (update_time env s).layer_text = (s.s_time_layer, TextRef.buffer) :: s.layer_text := by
  unfold update_time
  cases env.clock_is_24h_style <;> rfl

theorem update_time_frame (env : Env) (s : AppState) :
    (update_time env s).buffer_daymonth = s.buffer_daymonth
      ∧ (update_time env s).s_daymonth_layer = s.s_daymonth_layer
      ∧ (update_time env s).s_time_layer = s.s_time_layer
      ∧ (update_time env s).temperature_buffer = s.temperature_buffer
      ∧ (update_time env s).conditions_buffer = s.conditions_buffer := by
  unfold update_time
  simp only []
  split <;> simp only [text_layer_set_text, record, and_self]

theorem tick_handler_calls (DAY_UNIT : Nat) (env : Env) (tick_time : Tm) (units_changed : Nat)
    (s : AppState) :
    callsOf (tick_handler DAY_UNIT env tick_time units_changed) s
      = SdkCall.text_layer_set_text s.s_time_layer TextRef.buffer
        :: ((if units_changed &&& DAY_UNIT ≠ 0 then
              [SdkCall.text_layer_set_text s.s_daymonth_layer TextRef.buffer_daymonth]
            else [])
          ++ (if tick_time.tm_min.tmod 30 = 0 then
              [SdkCall.app_message_outbox_begin, SdkCall.dict_write_uint8 0 0,
                SdkCall.app_message_outbox_send]
            else [])) := by
  have key : (tick_handler DAY_UNIT env tick_time units_changed s).trace
      = s.trace ++ (SdkCall.text_layer_set_text s.s_time_layer TextRef.buffer
        :: ((if units_changed &&& DAY_UNIT ≠ 0 then
              [SdkCall.text_layer_set_text s.s_daymonth_layer TextRef.buffer_daymonth]
            else [])
          ++ (if tick_time.tm_min.tmod 30 = 0 then
              [SdkCall.app_message_outbox_begin, SdkCall.dict_write_uint8 0 0,
                SdkCall.app_message_outbox_send]
            else []))) := by
    unfold tick_handler
    simp only []
    by_cases hd : units_changed &&& DAY_UNIT ≠ 0 <;> by_cases hm : tick_time.tm_min.tmod 30 = 0
    · simp only [if_pos hd, if_pos hm, record, update_date, text_layer_set_text,
        update_time_trace, (update_time_frame env s).2.1, List.append_assoc, List.cons_append,
        List.nil_append]
    · simp only [if_pos hd, if_neg hm, record, update_date, text_layer_set_text,
        update_time_trace, (update_time_frame env s).2.1, List.append_assoc, List.cons_append,
        List.nil_append, List.append_nil]
    · simp only [if_neg hd, if_pos hm, record, update_time_trace, List.append_assoc,
        List.cons_append, List.nil_append]
    · simp only [if_neg hd, if_neg hm, update_time_trace, List.append_nil]
  unfold callsOf
  rw [key, List.drop_left]

theorem tick_handler_fields (DAY_UNIT : Nat) (env : Env) (tick_time : Tm) (units_changed : Nat)
    (s : AppState) :
    (tick_handler DAY_UNIT env tick_time units_changed s).buffer = (update_time env s).buffer
      ∧ (tick_handler DAY_UNIT env tick_time units_changed s).s_time_layer = s.s_time_layer
      ∧ (tick_handler DAY_UNIT env tick_time units_changed s).s_daymonth_layer
        = s.s_daymonth_layer
      ∧ (tick_handler DAY_UNIT env tick_time units_changed s).temperature_buffer
        = s.temperature_buffer
      ∧ (tick_handler DAY_UNIT env tick_time units_changed s).conditions_buffer
        = s.conditions_buffer
      ∧ (tick_handler DAY_UNIT env tick_time units_changed s).buffer_daymonth
        = (if units_changed &&& DAY_UNIT ≠ 0 then
            strftime env s.buffer_daymonth 7 (utf8 "%e.%b") env.localtime
          else s.buffer_daymonth)
      ∧ (tick_handler DAY_UNIT env tick_time units_changed s).layer_text
        = (if units_changed &&& DAY_UNIT ≠ 0 then
            (s.s_daymonth_layer, TextRef.buffer_daymonth)
              :: (s.s_time_layer, TextRef.buffer) :: s.layer_text
          else (s.s_time_layer, TextRef.buffer) :: s.layer_text) := by
  have f := update_time_frame env s
  unfold tick_handler
  simp only []
  by_cases hd : units_changed &&& DAY_UNIT ≠ 0 <;> by_cases hm : tick_time.tm_min.tmod 30 = 0
  · simp only [if_pos hd, if_pos hm, record, update_date, text_layer_set_text,
      update_time_layer_text, f.1, f.2.1, f.2.2.1, f.2.2.2.1, f.2.2.2.2, and_self]
  · simp only [if_pos hd, if_neg hm, record, update_date, text_layer_set_text,
      update_time_layer_text, f.1, f.2.1, f.2.2.1, f.2.2.2.1, f.2.2.2.2, and_self]
  · simp only [if_neg hd, if_pos hm, record, update_time_layer_text, f.1, f.2.1, f.2.2.1,
      f.2.2.2.1, f.2.2.2.2, and_self]
  · simp only [if_neg hd, if_neg hm, update_time_layer_text, f.1, f.2.1, f.2.2.1,
      f.2.2.2.1, f.2.2.2.2, and_self]

theorem update_time_weather (env : Env) (s : AppState) :
    (update_time env s).s_weather_layer = s.s_weather_layer
      ∧ (update_time env s).weather_layer_buffer = s.weather_layer_buffer := by
  unfold update_time
  simp only []
  split <;> simp only [text_layer_set_text, record, and_self]

theorem tick_handler_weather (DAY_UNIT : Nat) (env : Env) (tick_time : Tm) (units_changed : Nat)
    (s : AppState) :
    (tick_handler DAY_UNIT env tick_time units_changed s).s_weather_layer = s.s_weather_layer
      ∧ (tick_handler DAY_UNIT env tick_time units_changed s).weather_layer_buffer
        = s.weather_layer_buffer := by
  have f := update_time_weather env s
  unfold tick_handler
  simp only []
  by_cases hd : units_changed &&& DAY_UNIT ≠ 0 <;> by_cases hm : tick_time.tm_min.tmod 30 = 0
  · simp only [if_pos hd, if_pos hm, record, update_date, text_layer_set_text, f.1, f.2,
      and_self]
  · simp only [if_pos hd, if_neg hm, record, update_date, text_layer_set_text, f.1, f.2,
      and_self]
  · simp only [if_neg hd, if_pos hm, record, f.1, f.2, and_self]
  · simp only [if_neg hd, if_neg hm, f.1, f.2, and_self]

theorem loaded_loadedState : Loaded loadedState := by decide

theorem lookup_cons_ne (a k : Nat) (r : TextRef) (l : List (Nat × TextRef)) (h : a ≠ k) :
    List.lookup a ((k, r) :: l) = List.lookup a l := by
  rw [List.lookup_cons]
  have : (a == k) = false := by simpa using h
  rw [this]

theorem lookup_cons_self (a : Nat) (r : TextRef) (l : List (Nat × TextRef)) :
    List.lookup a ((a, r) :: l) = some r := by
  rw [List.lookup_cons]
  simp

theorem loaded_tick_handler (DAY_UNIT : Nat) (env : Env) (tick_time : Tm) (units_changed : Nat)
    (s : AppState) (h : Loaded s) :
    Loaded (tick_handler DAY_UNIT env tick_time units_changed s) := by
  obtain ⟨h1, h2, h3, h4, h5, h6, h7⟩ := h
  have f := tick_handler_fields DAY_UNIT env tick_time units_changed s
  unfold Loaded
  rw [f.2.1, f.2.2.1, f.2.2.2.2.2.2, (tick_handler_weather DAY_UNIT env tick_time units_changed s).1]
  refine ⟨h1, h2, h3, ?_⟩
  by_cases hd : units_changed &&& DAY_UNIT ≠ 0
  · rw [if_pos hd, lookup_cons_ne _ _ _ _ h1, lookup_cons_self, lookup_cons_self,
      lookup_cons_ne _ _ _ _ h3, lookup_cons_ne _ _ _ _ (Ne.symm h2)]
    exact ⟨Or.inr rfl, Or.inr rfl, h6, h7⟩
  · rw [if_neg hd, lookup_cons_self, lookup_cons_ne _ _ _ _ (Ne.symm h1),
      lookup_cons_ne _ _ _ _ (Ne.symm h2)]
    exact ⟨Or.inr rfl, h5, h6, h7⟩

theorem inbox_layer_text (d : List Tuple) (s : AppState) :
    (inbox_received_callback d s).layer_text
        = (s.s_weather_layer, TextRef.weather_layer_buffer) :: s.layer_text
      ∧ (inbox_received_callback d s).s_time_layer = s.s_time_layer
      ∧ (inbox_received_callback d s).s_daymonth_layer = s.s_daymonth_layer := by
  have e : ∀ d s, (readTuples d s).s_time_layer = s.s_time_layer
      ∧ (readTuples d s).s_daymonth_layer = s.s_daymonth_layer := by
    intro d
    induction d with
    | nil => intro s; exact ⟨rfl, rfl⟩
    | cons t rest ih =>
      intro s
      rw [readTuples, (ih _).1, (ih _).2]
      unfold handleTuple
      split
      · exact ⟨rfl, rfl⟩
      · split <;> exact ⟨rfl, rfl⟩
  have f := readTuples_frame d s
  refine ⟨?_, (e d s).1, (e d s).2⟩
  show (_, _) :: (readTuples d s).layer_text = _
  rw [f.1, f.2.1]

theorem loaded_inbox (d : List Tuple) (s : AppState) (h : Loaded s) :
    Loaded (inbox_received_callback d s) := by
  obtain ⟨h1, h2, h3, h4, h5, h6, h7⟩ := h
  have f := inbox_layer_text d s
  unfold Loaded
  rw [f.1, f.2.1, f.2.2, (inbox_buffers d s).2.2, lookup_cons_self, lookup_cons_ne _ _ _ _ h2,
    lookup_cons_ne _ _ _ _ (Ne.symm h3)]
  exact ⟨h1, h2, h3, h4, h5, by simp, by simp⟩

theorem decimalValue_twoDigits (k : Nat) : decimalValue (twoDigits k) = k := by
  simp only [decimalValue, twoDigits, List.foldl_cons, List.foldl_nil]
  omega

theorem tick_handler_timeLabel (DAY_UNIT : Nat) (env : Env) (tick_time : Tm)
    (units_changed : Nat) (s : AppState) (h : s.s_time_layer ≠ s.s_daymonth_layer) :
    timeLabel (tick_handler DAY_UNIT env tick_time units_changed s)
      = cstr (update_time env s).buffer := by
  have f := tick_handler_fields DAY_UNIT env tick_time units_changed s
  unfold timeLabel labelText
  rw [f.2.1, f.2.2.2.2.2.2]
  by_cases hd : units_changed &&& DAY_UNIT ≠ 0
  · rw [if_pos hd, lookup_cons_ne _ _ _ _ h, lookup_cons_self]
    simp only [deref]
    rw [f.1]
  · rw [if_neg hd, lookup_cons_self]
    simp only [deref]
    rw [f.1]

/-- C4.  On a tick whose minute is in 0..59 the handler sends a weather request
exactly when the minute is a multiple of 30, that is for minute 0 and minute 30,
whatever the unit flags; the outbox calls of such a tick are one begin, one
8-bit field with key 0 and value 0, and one send, and on every other tick there
is no outbox call at all. -/
theorem C4_weather_request (DAY_UNIT : Nat) (env : Env) (tick_time : Tm) (units_changed : Nat)
    (s : AppState) (hm : 0 ≤ tick_time.tm_min ∧ tick_time.tm_min ≤ 59) :
    (SdkCall.app_message_outbox_send
          ∈ callsOf (tick_handler DAY_UNIT env tick_time units_changed) s
        ↔ tick_time.tm_min % 30 = 0)
      ∧ (tick_time.tm_min % 30 = 0 ↔ tick_time.tm_min = 0 ∨ tick_time.tm_min = 30)
      ∧ (callsOf (tick_handler DAY_UNIT env tick_time units_changed) s).filter isOutboxCall
        = (if tick_time.tm_min % 30 = 0 then
            [SdkCall.app_message_outbox_begin, SdkCall.dict_write_uint8 0 0,
              SdkCall.app_message_outbox_send]
          else []) := by
  rw [tick_handler_calls, Int.tmod_eq_emod hm.1 (by norm_num)]
  refine ⟨?_, by omega, ?_⟩
  · by_cases hd : units_changed &&& DAY_UNIT ≠ 0 <;> by_cases h30 : tick_time.tm_min % 30 = 0
      <;> simp [if_pos, if_neg, hd, h30]
  · by_cases hd : units_changed &&& DAY_UNIT ≠ 0 <;> by_cases h30 : tick_time.tm_min % 30 = 0
      <;> simp [if_pos, if_neg, hd, h30, isOutboxCall, List.filter]

theorem C4_weather_request_witness :
    ((0 : Int) ≤ 30 ∧ (30 : Int) ≤ 59)
      ∧ (callsOf (tick_handler 8 sampleEnv ⟨30, 19, 3, 2⟩ 2) loadedState).filter isOutboxCall
        = (if (30 : Int) % 30 = 0 then
            [SdkCall.app_message_outbox_begin, SdkCall.dict_write_uint8 0 0,
              SdkCall.app_message_outbox_send]
          else []) :=
  ⟨by decide, (C4_weather_request 8 sampleEnv ⟨30, 19, 3, 2⟩ 2 loadedState (by decide)).2.2⟩

/-- C5.  In a loaded state a tick sets the text of the date layer exactly when
the DAY_UNIT bit is set in units_changed; without that bit the date buffer and
the text of the date label are unchanged, whatever the minute and the other
bits, and with it the date buffer is rewritten by `strftime` and shown. -/
theorem C5_date_label (DAY_UNIT : Nat) (env : Env) (tick_time : Tm) (units_changed : Nat)
    (s : AppState) (hs : Loaded s) :
    ((∃ r, SdkCall.text_layer_set_text s.s_daymonth_layer r
          ∈ callsOf (tick_handler DAY_UNIT env tick_time units_changed) s)
        ↔ units_changed &&& DAY_UNIT ≠ 0)
      ∧ (units_changed &&& DAY_UNIT = 0 →
          (tick_handler DAY_UNIT env tick_time units_changed s).buffer_daymonth
              = s.buffer_daymonth
            ∧ dateLabel (tick_handler DAY_UNIT env tick_time units_changed s) = dateLabel s)
      ∧ (units_changed &&& DAY_UNIT ≠ 0 →
          (tick_handler DAY_UNIT env tick_time units_changed s).buffer_daymonth
              = strftime env s.buffer_daymonth 7 (utf8 "%e.%b") env.localtime
            ∧ dateLabel (tick_handler DAY_UNIT env tick_time units_changed s)
              = cstr (tick_handler DAY_UNIT env tick_time units_changed s).buffer_daymonth) := by
  obtain ⟨h1, -, -, -, h5, -, -⟩ := hs
  have f := tick_handler_fields DAY_UNIT env tick_time units_changed s
  refine ⟨?_, ?_, ?_⟩
  · rw [tick_handler_calls]
    by_cases hd : units_changed &&& DAY_UNIT ≠ 0 <;> by_cases h30 : tick_time.tm_min.tmod 30 = 0
      <;> simp [if_pos, if_neg, hd, h30, h1, Ne.symm h1]
  · intro hd
    have hd' : ¬ units_changed &&& DAY_UNIT ≠ 0 := by simpa using hd
    refine ⟨by rw [f.2.2.2.2.2.1, if_neg hd'], ?_⟩
    unfold dateLabel labelText
    rw [f.2.2.1, f.2.2.2.2.2.2, if_neg hd', lookup_cons_ne _ _ _ _ (Ne.symm h1)]
    rcases h5 with h5 | h5
    · rw [h5]
    · rw [h5]
      simp only [deref]
      rw [f.2.2.2.2.2.1, if_neg hd']
  · intro hd
    refine ⟨by rw [f.2.2.2.2.2.1, if_pos hd], ?_⟩
    unfold dateLabel labelText
    rw [f.2.2.1, f.2.2.2.2.2.2, if_pos hd, lookup_cons_self]
    rfl

theorem C5_date_label_witness :
    Loaded tickedState ∧ 2 &&& 8 = 0 ∧ 10 &&& 8 ≠ 0
      ∧ ((tick_handler 8 sampleEnv ⟨31, 19, 3, 2⟩ 2 tickedState).buffer_daymonth
          = tickedState.buffer_daymonth
        ∧ dateLabel (tick_handler 8 sampleEnv ⟨31, 19, 3, 2⟩ 2 tickedState)
          = dateLabel tickedState)
      ∧ ((tick_handler 8 sampleEnv ⟨0, 0, 4, 2⟩ 10 tickedState).buffer_daymonth
          = strftime sampleEnv tickedState.buffer_daymonth 7 (utf8 "%e.%b") sampleEnv.localtime
        ∧ dateLabel (tick_handler 8 sampleEnv ⟨0, 0, 4, 2⟩ 10 tickedState)
          = cstr (tick_handler 8 sampleEnv ⟨0, 0, 4, 2⟩ 10 tickedState).buffer_daymonth) :=
  ⟨by decide, by decide, by decide,
    (C5_date_label 8 sampleEnv ⟨31, 19, 3, 2⟩ 2 tickedState (by decide)).2.1 (by decide),
    (C5_date_label 8 sampleEnv ⟨0, 0, 4, 2⟩ 10 tickedState (by decide)).2.2 (by decide)⟩

theorem formatHHMM_take (b : Bool) (h m : Nat) :
    (formatHHMM b h m).take 2
        = twoDigits (if b then h else if h % 12 = 0 then 12 else h % 12)
      ∧ (formatHHMM b h m).drop 3 = twoDigits m := by
  unfold formatHHMM twoDigits
  exact ⟨rfl, rfl⟩

/-- C6.  For every local time with hour 0..23 and minute 0..59 the time label
after `update_time` is the time as HH:MM: the two-digit hour, 00..23 when the
24h preference is set and 01..12 otherwise, a colon, the two-digit minute.  It
is 5 characters long and is stored whole, with its NUL, in the 6-byte buffer.
Every tick performs this refresh, whatever its flags and minute. -/
theorem C6_time_label (env : Env) (s : AppState)
    (hh : 0 ≤ env.localtime.tm_hour ∧ env.localtime.tm_hour ≤ 23)
    (hm : 0 ≤ env.localtime.tm_min ∧ env.localtime.tm_min ≤ 59) :
    timeLabel (update_time env s)
        = formatHHMM env.clock_is_24h_style env.localtime.tm_hour.toNat
            env.localtime.tm_min.toNat
      ∧ (timeLabel (update_time env s)).length = 5
      ∧ (update_time env s).buffer
        = formatHHMM env.clock_is_24h_style env.localtime.tm_hour.toNat
            env.localtime.tm_min.toNat ++ 0 :: s.buffer.drop 6
      ∧ decimalValue ((timeLabel (update_time env s)).take 2)
        = (if env.clock_is_24h_style then env.localtime.tm_hour.toNat
          else if env.localtime.tm_hour.toNat % 12 = 0 then 12
          else env.localtime.tm_hour.toNat % 12)
      ∧ (if env.clock_is_24h_style then
          decimalValue ((timeLabel (update_time env s)).take 2) ≤ 23
        else 1 ≤ decimalValue ((timeLabel (update_time env s)).take 2)
          ∧ decimalValue ((timeLabel (update_time env s)).take 2) ≤ 12)
      ∧ decimalValue ((timeLabel (update_time env s)).drop 3) = env.localtime.tm_min.toNat
      ∧ (∀ (DAY_UNIT : Nat) (tick_time : Tm) (units_changed : Nat),
          SdkCall.text_layer_set_text s.s_time_layer TextRef.buffer
              ∈ callsOf (tick_handler DAY_UNIT env tick_time units_changed) s
            ∧ cstr (tick_handler DAY_UNIT env tick_time units_changed s).buffer
              = formatHHMM env.clock_is_24h_style env.localtime.tm_hour.toNat
                  env.localtime.tm_min.toNat
            ∧ (Loaded s → timeLabel (tick_handler DAY_UNIT env tick_time units_changed s)
              = formatHHMM env.clock_is_24h_style env.localtime.tm_hour.toNat
                  env.localtime.tm_min.toNat)) := by
  have e := update_time_buffer env s hh hm
  have el : timeLabel (update_time env s)
      = formatHHMM env.clock_is_24h_style env.localtime.tm_hour.toNat
          env.localtime.tm_min.toNat := by
    rw [update_time_label, e]
  have ev : decimalValue ((timeLabel (update_time env s)).take 2)
      = (if env.clock_is_24h_style then env.localtime.tm_hour.toNat
        else if env.localtime.tm_hour.toNat % 12 = 0 then 12
        else env.localtime.tm_hour.toNat % 12) := by
    rw [el, (formatHHMM_take _ _ _).1, decimalValue_twoDigits]
  refine ⟨el, by rw [el, formatHHMM_length], ?_, ev, ?_, ?_, ?_⟩
  · rw [update_time_buffer_eq]
    unfold strftime
    rw [strftimeOutput_time env hh hm, formatHHMM_length, if_pos (by norm_num)]
  · rw [ev]
    cases env.clock_is_24h_style
    · simp only [Bool.false_eq_true, if_false]
      split <;> omega
    · simp only [if_true]
      omega
  · rw [el, (formatHHMM_take _ _ _).2, decimalValue_twoDigits]
  · intro DAY_UNIT tick_time units_changed
    refine ⟨?_, ?_, ?_⟩
    · rw [tick_handler_calls]
      exact List.mem_cons_self _ _
    · rw [(tick_handler_fields DAY_UNIT env tick_time units_changed s).1, e]
    · intro hs
      rw [tick_handler_timeLabel _ _ _ _ _ hs.1, e]

theorem C6_time_label_witness :
    ((0 : Int) ≤ sampleEnv.localtime.tm_hour ∧ sampleEnv.localtime.tm_hour ≤ 23)
      ∧ ((0 : Int) ≤ sampleEnv.localtime.tm_min ∧ sampleEnv.localtime.tm_min ≤ 59)
      ∧ Loaded loadedState
      ∧ timeLabel (update_time sampleEnv loadedState) = formatHHMM false 19 30
      ∧ timeLabel (tick_handler 8 sampleEnv ⟨30, 19, 3, 2⟩ 10 loadedState)
        = formatHHMM false 19 30 :=
  ⟨by decide, by decide, by decide,
    (C6_time_label sampleEnv loadedState (by decide) (by decide)).1,
    ((C6_time_label sampleEnv loadedState (by decide) (by decide)).2.2.2.2.2.2
      8 ⟨30, 19, 3, 2⟩ 10).2.2 (by decide)⟩

theorem lastWith_singleton (k : Nat) (t : Tuple) :
    lastWith k [t] = if t.key = k then some t else none := rfl

/-- C9.  The two weather buffers start out empty.  While they still hold their
initial contents, a dictionary with only a conditions tuple of text `c` (at
most 29 bytes) makes the weather label ", " followed by `c`, and a dictionary
with only a temperature tuple makes it the temperature text followed by ", "
and nothing else. -/
theorem C9_initially_empty (s : AppState)
    (hT : s.temperature_buffer = AppState.initial.temperature_buffer)
    (hC : s.conditions_buffer = AppState.initial.conditions_buffer) :
    cstr AppState.initial.temperature_buffer = []
      ∧ cstr AppState.initial.conditions_buffer = []
      ∧ (∀ t : Tuple, t.key = KEY_CONDITIONS → (cstr t.cstring).length ≤ 29 →
          weatherLabel (inbox_received_callback [t] s) = utf8 ", " ++ cstr t.cstring)
      ∧ (∀ t : Tuple, t.key = KEY_TEMPERATURE →
          weatherLabel (inbox_received_callback [t] s)
            = (decimal t.int32 ++ [0xC3, 0x82, 0xC2, 0xB0, 67]).take 7 ++ utf8 ", ") := by
  have e0 : cstr AppState.initial.temperature_buffer = [] := cstr_replicate_zero 8
  have e1 : cstr AppState.initial.conditions_buffer = [] := cstr_replicate_zero 32
  refine ⟨e0, e1, ?_, ?_⟩
  · intro t hk hl
    have hk0 : ¬ t.key = KEY_TEMPERATURE := by rw [hk]; decide
    rw [weatherLabel_inbox, lastWith_singleton, lastWith_singleton, if_neg hk0, if_pos hk, hT, e0]
    simp only [Option.map_none', Option.getD_none, Option.map_some', Option.getD_some]
    have h31 : (cstr t.cstring).take 31 = cstr t.cstring := List.take_of_length_le (by omega)
    have h29 : (cstr t.cstring).take 29 = cstr t.cstring := List.take_of_length_le hl
    rw [h31, weatherText_cut _ _ (by simp)]
    simp only [List.nil_append, List.length_nil, Nat.sub_zero]
    rw [h29]
  · intro t hk
    have hk1 : ¬ t.key = KEY_CONDITIONS := by rw [hk]; decide
    rw [weatherLabel_inbox, lastWith_singleton, lastWith_singleton, if_pos hk, if_neg hk1, hC, e1]
    simp only [Option.map_none', Option.getD_none, Option.map_some', Option.getD_some]
    rw [weatherText_cut _ _ (temperatureText_length_le _)]
    simp [temperatureText, degreeSuffix]

theorem C9_initially_empty_witness :
    tickedState.temperature_buffer = AppState.initial.temperature_buffer
      ∧ tickedState.conditions_buffer = AppState.initial.conditions_buffer
      ∧ (cstr (utf8 "Sunny" ++ [0])).length ≤ 29
      ∧ weatherLabel (inbox_received_callback [⟨1, 1852732755, utf8 "Sunny" ++ [0]⟩] tickedState)
        = utf8 ", " ++ cstr (utf8 "Sunny" ++ [0])
      ∧ weatherLabel (inbox_received_callback [⟨0, 21, [21, 0, 0, 0]⟩] tickedState)
        = (decimal 21 ++ [0xC3, 0x82, 0xC2, 0xB0, 67]).take 7 ++ utf8 ", " :=
  ⟨by decide, by decide, by decide,
    (C9_initially_empty tickedState (by decide) (by decide)).2.2.1
      ⟨1, 1852732755, utf8 "Sunny" ++ [0]⟩ (by decide) (by decide),
    (C9_initially_empty tickedState (by decide) (by decide)).2.2.2
      ⟨0, 21, [21, 0, 0, 0]⟩ (by decide)⟩

theorem main_window_load_trace (window : Nat) (s : AppState) :
    (main_window_load window s).trace
      = s.trace ++
        [SdkCall.gbitmap_create_with_resource ResourceId.RESOURCE_ID_TUTORIAL_BACKGROUND
            s.next_handle,
          SdkCall.bitmap_layer_create ⟨0, 0, 144, 168⟩ (s.next_handle + 1),
          SdkCall.bitmap_layer_set_bitmap (s.next_handle + 1) s.next_handle,
          SdkCall.text_layer_create ⟨5, 52, 139, 50⟩ (s.next_handle + 2),
          SdkCall.text_layer_set_background_color (s.next_handle + 2) GColor.GColorClear,
          SdkCall.text_layer_set_text_color (s.next_handle + 2) GColor.GColorBlack,
          SdkCall.text_layer_create ⟨0, 130, 144, 25⟩ (s.next_handle + 3),
          SdkCall.text_layer_set_background_color (s.next_handle + 3) GColor.GColorClear,
          SdkCall.text_layer_set_text_color (s.next_handle + 3) GColor.GColorWhite,
          SdkCall.text_layer_set_text (s.next_handle + 3)
            (TextRef.literal (utf8 "Loading..." ++ [0])),
          SdkCall.text_layer_create ⟨5, 12, 139, 30⟩ (s.next_handle + 4),
          SdkCall.text_layer_set_background_color (s.next_handle + 4) GColor.GColorBlack,
          SdkCall.text_layer_set_text_color (s.next_handle + 4) GColor.GColorWhite,
          SdkCall.fonts_load_custom_font ResourceId.RESOURCE_ID_FONT_PERFECT_DOS_48
            (s.next_handle + 5),
          SdkCall.fonts_load_custom_font ResourceId.RESOURCE_ID_FONT_PERFECT_DOS_16
            (s.next_handle + 6),
          SdkCall.fonts_load_custom_font ResourceId.RESOURCE_ID_FONT_PERFECT_DOS_24
            (s.next_handle + 7),
          SdkCall.text_layer_set_font (s.next_handle + 2) (s.next_handle + 5),
          SdkCall.text_layer_set_font (s.next_handle + 3) (s.next_handle + 6),
          SdkCall.text_layer_set_font (s.next_handle + 4) (s.next_handle + 7),
          SdkCall.text_layer_set_text_alignment (s.next_handle + 2)
            GTextAlignment.GTextAlignmentCenter,
          SdkCall.text_layer_set_text_alignment (s.next_handle + 3)
            GTextAlignment.GTextAlignmentCenter,
          SdkCall.text_layer_set_text_alignment (s.next_handle + 4)
            GTextAlignment.GTextAlignmentCenter,
          SdkCall.layer_add_child window (s.next_handle + 1),
          SdkCall.layer_add_child window (s.next_handle + 2),
          SdkCall.layer_add_child window (s.next_handle + 3),
          SdkCall.layer_add_child window (s.next_handle + 4)] := by
  simp only [main_window_load, create, record, text_layer_set_text, List.append_assoc,
    List.cons_append, List.nil_append, Nat.add_assoc, Nat.reduceAdd]

theorem main_window_load_handles (window : Nat) (s : AppState) :
    (main_window_load window s).s_background_bitmap = s.next_handle
      ∧ (main_window_load window s).s_background_layer = s.next_handle + 1
      ∧ (main_window_load window s).s_time_layer = s.next_handle + 2
      ∧ (main_window_load window s).s_weather_layer = s.next_handle + 3
      ∧ (main_window_load window s).s_daymonth_layer = s.next_handle + 4
      ∧ (main_window_load window s).s_time_font = s.next_handle + 5
      ∧ (main_window_load window s).s_weather_font = s.next_handle + 6
      ∧ (main_window_load window s).s_date_font = s.next_handle + 7 := by
  simp only [main_window_load, create, record, text_layer_set_text, Nat.add_assoc,
    Nat.reduceAdd, and_self]

theorem main_window_unload_trace (window : Nat) (s : AppState) :
    (main_window_unload window s).trace
      = s.trace ++
        [SdkCall.text_layer_destroy s.s_time_layer,
          SdkCall.text_layer_destroy s.s_weather_layer,
          SdkCall.text_layer_destroy s.s_daymonth_layer,
          SdkCall.fonts_unload_custom_font s.s_time_font,
          SdkCall.fonts_unload_custom_font s.s_weather_font,
          SdkCall.fonts_unload_custom_font s.s_date_font,
          SdkCall.gbitmap_destroy s.s_background_bitmap,
          SdkCall.bitmap_layer_destroy s.s_background_layer] := by
  simp only [main_window_unload, record, text_layer_destroy, List.append_assoc,
    List.cons_append, List.nil_append]

theorem callsOf_comp (f g : AppState → AppState) (s : AppState) (l1 l2 : List SdkCall)
    (h1 : (f s).trace = s.trace ++ l1) (h2 : (g (f s)).trace = (f s).trace ++ l2) :
    callsOf (fun st => g (f st)) s = callsOf f s ++ callsOf g (f s) := by
  rw [callsOf_of_trace f s l1 h1, callsOf_of_trace g (f s) l2 h2]
  apply callsOf_of_trace
  rw [h2, h1, List.append_assoc]

theorem callsOf_load (window : Nat) (s : AppState) :
    (callsOf (main_window_load window) s).filterMap created
        = [(ResourceKind.bitmap, s.next_handle), (ResourceKind.bitmapLayer, s.next_handle + 1),
            (ResourceKind.textLayer, s.next_handle + 2),
            (ResourceKind.textLayer, s.next_handle + 3),
            (ResourceKind.textLayer, s.next_handle + 4), (ResourceKind.font, s.next_handle + 5),
            (ResourceKind.font, s.next_handle + 6), (ResourceKind.font, s.next_handle + 7)]
      ∧ (callsOf (main_window_load window) s).filterMap released = [] := by
  unfold callsOf
  rw [main_window_load_trace, List.drop_left]
  exact ⟨rfl, rfl⟩

theorem callsOf_unload (window : Nat) (s : AppState) :
    (callsOf (main_window_unload window) (main_window_load window s)).filterMap released
        = [(ResourceKind.textLayer, s.next_handle + 2),
            (ResourceKind.textLayer, s.next_handle + 3),
            (ResourceKind.textLayer, s.next_handle + 4), (ResourceKind.font, s.next_handle + 5),
            (ResourceKind.font, s.next_handle + 6), (ResourceKind.font, s.next_handle + 7),
            (ResourceKind.bitmap, s.next_handle), (ResourceKind.bitmapLayer, s.next_handle + 1)]
      ∧ (callsOf (main_window_unload window) (main_window_load window s)).filterMap created
        = [] := by
  have h := main_window_load_handles window s
  unfold callsOf
  rw [main_window_unload_trace, List.drop_left, h.1, h.2.1, h.2.2.1, h.2.2.2.1, h.2.2.2.2.1,
    h.2.2.2.2.2.1, h.2.2.2.2.2.2.1, h.2.2.2.2.2.2.2]
  exact ⟨rfl, rfl⟩

/-- C8.  In the trace of `main_window_load` followed by `main_window_unload`,
load creates eight objects (the bitmap, the bitmap layer, three text layers,
three fonts) and releases none, unload creates none, and the objects unload
releases are exactly the ones load created, each released once and none
twice. -/
theorem C8_load_unload_resources (window : Nat) (s : AppState) :
    callsOf (fun st => main_window_unload window (main_window_load window st)) s
        = callsOf (main_window_load window) s
          ++ callsOf (main_window_unload window) (main_window_load window s)
      ∧ (callsOf (main_window_load window) s).filterMap created
        = [(ResourceKind.bitmap, s.next_handle), (ResourceKind.bitmapLayer, s.next_handle + 1),
            (ResourceKind.textLayer, s.next_handle + 2),
            (ResourceKind.textLayer, s.next_handle + 3),
            (ResourceKind.textLayer, s.next_handle + 4), (ResourceKind.font, s.next_handle + 5),
            (ResourceKind.font, s.next_handle + 6), (ResourceKind.font, s.next_handle + 7)]
      ∧ (callsOf (main_window_load window) s).filterMap released = []
      ∧ (callsOf (main_window_unload window) (main_window_load window s)).filterMap created = []
      ∧ ((callsOf (main_window_unload window) (main_window_load window s)).filterMap
            released).Perm
          ((callsOf (main_window_load window) s).filterMap created)
      ∧ ((callsOf (main_window_unload window) (main_window_load window s)).filterMap
            released).Nodup := by
  have hl := callsOf_load window s
  have hu := callsOf_unload window s
  have hperm : ((callsOf (main_window_unload window) (main_window_load window s)).filterMap
      released).Perm ((callsOf (main_window_load window) s).filterMap created) := by
    rw [hl.1, hu.1]
    exact @List.perm_append_comm _
      [(ResourceKind.textLayer, s.next_handle + 2),
        (ResourceKind.textLayer, s.next_handle + 3),
        (ResourceKind.textLayer, s.next_handle + 4), (ResourceKind.font, s.next_handle + 5),
        (ResourceKind.font, s.next_handle + 6), (ResourceKind.font, s.next_handle + 7)]
      [(ResourceKind.bitmap, s.next_handle),
        (ResourceKind.bitmapLayer, s.next_handle + 1)]
  have hnodup : ((callsOf (main_window_unload window) (main_window_load window s)).filterMap
      released).Nodup := by
    rw [hu.1]
    simp
  exact ⟨callsOf_comp (main_window_load window) (main_window_unload window) s _ _
      (main_window_load_trace window s)
      (main_window_unload_trace window (main_window_load window s)),
    hl.1, hl.2, hu.2, hperm, hnodup⟩

end PebbleWatchface
